import Mathlib

set_option maxRecDepth 20000

/-!
Verification development for the CIRRUS user-apps web portal
(`app/routes/chart_generator.py` and `app/main/views.py`).

The Python code is shallowly embedded: every `generate_*` function of
`chart_generator.py` is transcribed as a Lean function on explicit data,
string building is modelled with `String.append` over the same literal
chunks the Python source contains, and the handful of Python built-ins
the code relies on (`str()`, `int()`, truthiness, `str.replace`,
`str.split`, `str.rsplit`, `str.format`, f-string brace semantics) are
modelled by explicit helper functions defined below.

Conventions used throughout:
* A literal `\x7b` / `\x7d` escape in a Lean string stands for the brace
  character, exactly as it appears in the generated text.
* Python f-strings turn a doubled brace in the source into a single
  brace in the produced text; the Lean literals below always show the
  PRODUCED text, so a quadruple brace in the Python source appears as a
  double `\x7b\x7b` here and a doubled brace in the Python source
  appears as a single `\x7b` here.
* JSON values arriving in a request are modelled by `PyValue`;
  exceptions are modelled by `Except PyErr`.
-/

/-- Brace characters, used pervasively by the embedded string scanners. -/
def obrC : Char := '\x7b'

/-- Closing brace character. -/
def cbrC : Char := '\x7d'

/-- Model of a JSON value as delivered by `request.json` (only the shapes
this application actually sends: strings, numbers, booleans, null, and
the list of enabled add-on identifiers). -/
inductive PyValue where
  | str (s : String)
  | int (n : Int)
  | bool (b : Bool)
  | pynull
  | list (l : List String)
deriving DecidableEq

/-- Model of the Python exceptions this code can raise. -/
inductive PyErr where
  | keyError (k : String)
  | valueError (m : String)
  | typeError (m : String)
deriving DecidableEq

deriving instance DecidableEq for Except

/-- Python truthiness (`bool(v)`): empty string, zero, `False`, `None`
and the empty list are falsy, everything else is truthy. -/
def pyTruthy : PyValue → Bool
  | .str s => !(s = "")
  | .int n => !(n = 0)
  | .bool b => b
  | .pynull => false
  | .list l => !l.isEmpty

/-- Decimal digit character (for rendering integers the way Python
`str()` does; only ever applied to `d < 10`). -/
def digitChar (d : Nat) : Char :=
  if d = 0 then '0' else if d = 1 then '1' else if d = 2 then '2' else if d = 3 then '3'
  else if d = 4 then '4' else if d = 5 then '5' else if d = 6 then '6' else if d = 7 then '7'
  else if d = 8 then '8' else if d = 9 then '9' else '?' 

/-- Decimal digits of a natural number, most significant first; fuelled
recursion (the fuel is always taken `≥ n`, so it never runs out). -/
def natDigitsAux : Nat → Nat → List Char
  | 0, _ => []
  | fuel + 1, n => if n < 10 then [digitChar n] else natDigitsAux fuel (n / 10) ++ [digitChar (n % 10)]

/-- Python `str(n)` for a natural number. -/
def natStr (n : Nat) : String := String.mk (natDigitsAux (n + 1) n)

/-- Python `str(n)` for an integer: decimal digits, with a leading minus
sign for negative values. -/
def pyIntStr (n : Int) : String :=
  if n < 0 then "-" ++ natStr n.natAbs else natStr n.natAbs

/-- Python `str(v)` on a `PyValue`.  Strings render as themselves
(`str(s) == s`), integers in decimal, booleans as `True` / `False`,
`None` as the text `None`, and a list of strings as its Python `repr`
(brackets, single quotes, comma-space separators). -/
def pyStr : PyValue → String
  | .str s => s
  | .int n => pyIntStr n
  | .bool b => if b then "True" else "False"
  | .pynull => "None"
  | .list l => "[" ++ String.intercalate ", " (l.map (fun s => "\x27" ++ s ++ "\x27")) ++ "]"

/-- Accumulating decimal parser over characters; `none` on the first
non-digit character. -/
def digitsToNat : Nat → List Char → Option Nat
  | acc, [] => some acc
  | acc, c :: rest =>
      if 48 ≤ c.toNat && c.toNat ≤ 57 then digitsToNat (acc * 10 + (c.toNat - 48)) rest else none

/-- Whitespace characters Python strips around an `int()` literal. -/
def isPySpace (c : Char) : Bool :=
  c = ' ' || c = '\t' || c = '\n' || c = '\x0d' || c = '\x0b' || c = '\x0c'

/-- Python `s.strip()` (whitespace from both ends). -/
def pyStrip (s : String) : String :=
  String.mk (((s.data.dropWhile isPySpace).reverse.dropWhile isPySpace).reverse)

/-- Python `int(s)` on string contents (after stripping surrounding
whitespace): an optional sign followed by at least one decimal digit;
anything else raises `ValueError`. -/
def pyIntOfStr (s : String) : Except PyErr Int :=
  let t := pyStrip s
  let core : List Char → Option Int := fun l =>
    match l with
    | '-' :: ds => if ds.isEmpty then none else (digitsToNat 0 ds).map (fun n => -(n : Int))
    | '+' :: ds => if ds.isEmpty then none else (digitsToNat 0 ds).map (fun n => (n : Int))
    | ds => if ds.isEmpty then none else (digitsToNat 0 ds).map (fun n => (n : Int))
  match core t.data with
  | some n => .ok n
  | none => .error (.valueError ("invalid literal for int() with base 10: " ++ s))

/-- Python `int(v)` on a `PyValue`: integers pass through, booleans
become 0/1, strings are parsed, `None` and lists raise `TypeError`. -/
def pyIntOf : PyValue → Except PyErr Int
  | .int n => .ok n
  | .bool b => .ok (if b then 1 else 0)
  | .str s => pyIntOfStr s
  | .pynull => .error (.typeError "int() argument must not be None")
  | .list _ => .error (.typeError "int() argument must not be a list")

/-- Does the second list start with the first one? -/
def startsWithL : List Char → List Char → Bool
  | [], _ => true
  | _ :: _, [] => false
  | a :: as, b :: bs => a = b && startsWithL as bs

/-- Substring test on character lists (Python `pat in s`). -/
def containsL (pat : List Char) : List Char → Bool
  | [] => pat.isEmpty
  | c :: rest => startsWithL pat (c :: rest) || containsL pat rest

/-- Substring test on strings (Python `pat in s`). -/
def strContains (s pat : String) : Bool := containsL pat.data s.data

/-- Python `sep.join(items)`. -/
def pyJoin (sep : String) : List String → String
  | [] => ""
  | [s] => s
  | s :: s2 :: rest => s ++ sep ++ pyJoin sep (s2 :: rest)

/-- Python `s.replace(pat, rep)` worker: replaces every non-overlapping
occurrence left to right.  The `skip` counter consumes the remainder of
a match that was just rewritten.  (The degenerate empty pattern never
occurs in this code base; for it this worker replaces at every
position.) -/
def replaceAllAux (pat rep : List Char) : List Char → Nat → List Char
  | [], _ => []
  | _ :: rest, skip + 1 => replaceAllAux pat rep rest skip
  | c :: rest, 0 =>
      if startsWithL pat (c :: rest) then rep ++ replaceAllAux pat rep rest (pat.length - 1)
      else c :: replaceAllAux pat rep rest 0

/-- Python `s.replace(pat, rep)` on strings. -/
def pyReplace (s pat rep : String) : String :=
  String.mk (replaceAllAux pat.data rep.data s.data 0)

/-- Characters of a list up to (excluding) the first occurrence of
`stop`; the whole list if `stop` does not occur. -/
def takeUntil (stop : Char) : List Char → List Char
  | [] => []
  | c :: rest => if c = stop then [] else c :: takeUntil stop rest

/-- Python `s.split(sep)[0]`: the part before the first separator (the
whole string when the separator is absent; the empty string splits to
`['']`, whose head is the empty string). -/
def pySplitHead (s : String) (sep : Char) : String := String.mk (takeUntil sep s.data)

/-- Worker for Python `s.rsplit(sep, 1)`: splits around the LAST
occurrence of `sep`, or `none` when `sep` does not occur. -/
def rsplitLastAux (sep : Char) : List Char → Option (List Char × List Char)
  | [] => none
  | c :: rest =>
      match rsplitLastAux sep rest with
      | some (a, b) => some (c :: a, b)
      | none => if c = sep then some ([], rest) else none

/-- Python `s.rsplit(sep, 1)`: a one- or two-element list. -/
def pyRsplit1 (s : String) (sep : Char) : List String :=
  match rsplitLastAux sep s.data with
  | some (a, b) => [String.mk a, String.mk b]
  | none => [s]

/-- Field-name head of a `str.format` replacement field: Python takes
the part before the first `.` or `[` as the argument name. -/
def argNameOf (field : List Char) : List Char :=
  field.takeWhile (fun c => !(c = '.' || c = '['))

/-- Scanner for Python `str.format(key=val)` with a single keyword
argument.  The first mode argument is `none` outside a replacement
field and `some acc` inside one (with the accumulated field text).
Doubled braces produce a literal brace; a field whose argument name is
`key` is replaced by `val` (inserted text is not rescanned, as in
Python); any other argument name raises `KeyError`; a lone closing
brace, an unterminated field, or a nested opening brace raises
`ValueError`. -/
def fmtAux (key val : List Char) : Option (List Char) → List Char → Except PyErr (List Char)
  | none, [] => .ok []
  | some _, [] => .error (.valueError "expected \x27\x7d\x27 before end of string")
  | none, [c] =>
      if c = obrC then .error (.valueError "Single \x27\x7b\x27 encountered in format string")
      else if c = cbrC then .error (.valueError "Single \x27\x7d\x27 encountered in format string")
      else .ok [c]
  | none, c :: c2 :: rest =>
      if c = obrC then
        if c2 = obrC then (fmtAux key val none rest).map (fun t => obrC :: t)
        else fmtAux key val (some []) (c2 :: rest)
      else if c = cbrC then
        if c2 = cbrC then (fmtAux key val none rest).map (fun t => cbrC :: t)
        else .error (.valueError "Single \x27\x7d\x27 encountered in format string")
      else (fmtAux key val none (c2 :: rest)).map (fun t => c :: t)
  | some acc, c :: rest =>
      if c = cbrC then
        if argNameOf acc = key then (fmtAux key val none rest).map (fun t => val ++ t)
        else .error (.keyError (String.mk (argNameOf acc)))
      else if c = obrC then .error (.valueError "unexpected \x27\x7b\x27 in field name")
      else fmtAux key val (some (acc ++ [c])) rest

/-- Python `s.format(key=val)` with one keyword argument. -/
def pyFormat1 (s key val : String) : Except PyErr String :=
  (fmtAux key.data val.data none s.data).map String.mk

/-- Python `s.lower()` (only ever applied to `True`/`False` here):
ASCII lowercasing, character by character. -/
def pyLower (s : String) : String := String.mk (s.data.map Char.toLower)

/-- True when the string contains no brace character (such text passes
through `str.format` unchanged). -/
def braceFreeL : List Char → Bool
  | [] => true
  | c :: rest => !(c = obrC || c = cbrC) && braceFreeL rest

/-- String version of `braceFreeL`. -/
def braceFree (s : String) : Bool := braceFreeL s.data

/-!
Data model: the base application configuration extracted at the top of
`generate_helm` (chart_generator.py lines 55-63), the free-form add-on
field dictionary, and the static add-on registry (lines 11-39).
-/

/-- Base application description, mirroring the `app_config` dictionary
of `generate_helm` (chart_generator.py lines 55-63): `app_name` and
`image` hold the raw strings (absent/None is modelled as the empty
string, which has the same truthiness), `replicas` and `port` the
already-coerced integers, `enable_ingress` the truthiness of the flag,
`ingress_type` and `domain` the raw strings with their defaults. -/
structure AppConfig where
  app_name : String
  image : String
  replicas : Int
  port : Int
  enable_ingress : Bool
  ingress_type : String
  domain : String
deriving DecidableEq

/-- The `addon_config` dictionary built by the extraction loop of
`generate_helm` (lines 69-81): field name to value, in request order. -/
def AddonConfig : Type := List (String × PyValue)

/-- Python `addon_config.get(k, d)`. -/
def acGet (ac : List (String × PyValue)) (k : String) (d : PyValue) : PyValue :=
  match ac.find? (fun p => p.1 == k) with
  | some p => p.2
  | none => d

/-- Rendered form of `addon_config.get(k, d)` as spliced into an
f-string (Python applies `str()` to the value). -/
def acGetStr (ac : List (String × PyValue)) (k : String) (d : PyValue) : String :=
  pyStr (acGet ac k d)

/-- Rendered form of `str(addon_config.get(k, d)).lower()` as used for
the boolean-valued values.yaml entries. -/
def acGetLower (ac : List (String × PyValue)) (k : String) (d : PyValue) : String :=
  pyLower (pyStr (acGet ac k d))

/-- One entry of the add-on registry (display name, description,
required input fields). -/
structure AddonDef where
  name : String
  description : String
  fields : List String
deriving DecidableEq

/-- The static add-on registry `AVAILABLE_ADDONS` (chart_generator.py
lines 11-39), in declaration order. -/
def AVAILABLE_ADDONS : List (String × AddonDef) :=
  [ ("cnpg",
     { name := "CloudNativePG Cluster"
       description := "Production-grade PostgreSQL cluster with HA and backups"
       fields := ["cnpg_instances", "cnpg_storage_size", "cnpg_backup_enabled",
                  "cnpg_enable_superuser", "cnpg_superuser_secret_path", "cnpg_superuser_username_key", "cnpg_superuser_password_key",
                  "cnpg_app_owner", "cnpg_app_secret_path", "cnpg_app_password_key"] }),
    ("dask",
     { name := "Dask Cluster"
       description := "Distributed computing with Dask scheduler and workers"
       fields := ["worker_replicas", "worker_threads", "worker_memory"] }),
    ("persistence",
     { name := "Persistent Volume"
       description := "CIRRUS storage"
       fields := ["pv_access_mode", "pv_storage_size", "pv_mount_path"] }),
    ("nfs",
     { name := "NFS Volume"
       description := "Shared NFS storage - for external servers or Glade (contact cirrus-admin@ucar.edu for Glade access)"
       fields := ["nfs_server", "nfs_path", "nfs_mount_path", "nfs_readonly"] }),
    ("external_secrets",
     { name := "External Secrets (Vault)"
       description := "Inject secrets from bao.k8s.ucar.edu"
       fields := ["secret_path"] }) ]

/-- Identifiers in the registry key space. -/
def isKnownAddon (a : String) : Bool :=
  (AVAILABLE_ADDONS.map Prod.fst).contains a

/-- Transcribed from chart_generator.py lines 166-174
(`generate_chart_yaml`), an f-string splicing the application name. -/
def generate_chart_yaml (app_name : String) : String :=
  "apiVersion: v2\nname: " ++ app_name ++
  "\ndescription: A modular Helm chart for " ++ app_name ++
  " on CIRRUS\ntype: application\nversion: 0.1.0\nappVersion: \"1.0\"\n"

/-- Transcribed from chart_generator.py line 185: the certificate host
label: `fqdn.replace(".k8s.ucar.edu", "") if ".k8s.ucar.edu" in fqdn
else fqdn.split(".")[0]`.  Note `replace` removes EVERY occurrence of
the substring, wherever it appears, not just a suffix. -/
def values_host (fqdn : String) : String :=
  if strContains fqdn ".k8s.ucar.edu" then pyReplace fqdn ".k8s.ucar.edu" ""
  else pySplitHead fqdn '.'

/-- Transcribed from chart_generator.py lines 177-290
(`generate_modular_values`): the base values document followed by one
section per enabled add-on, appended in the fixed order ingress, cnpg,
dask, persistence, nfs, external_secrets. -/
def generate_modular_values (app_config : AppConfig) (enabled_addons : List String)
    (addon_config : List (String × PyValue)) : String :=
  let image_parts := pyRsplit1 app_config.image ':'
  let image := image_parts.headD ""
  let tag := if image_parts.length > 1 then image_parts.getD 1 "" else "latest"
  let fqdn := app_config.domain
  let host := values_host fqdn
  let base :=
    "# Modular Helm Chart for " ++ app_config.app_name ++
    "\n# Generated by CIRRUS Helm Chart Generator\n\n# Number of pod replicas\n# We recommend 2+ for zero-downtime deployments during server maintenance\nreplicaCount: " ++
    pyIntStr app_config.replicas ++
    "\n\nwebapp:\n  name: " ++ app_config.app_name ++
    "\n  group: " ++ app_config.app_name ++
    "\n  path: /  # URL path - typically just / unless your app uses a different base path\n  tls:\n    fqdn: " ++
    fqdn ++
    "\n    secretName: incommon-cert-" ++ host ++
    "\n  container:\n    image: " ++ image ++ ":" ++ tag ++
    "\n    port: " ++ pyIntStr app_config.port ++
    "\n    memory: 1G\n    cpu: 2\n"
  let withIngress :=
    if app_config.enable_ingress then
      base ++ "\ningress:\n  enabled: true\n  access: " ++ app_config.ingress_type ++
      "  # \x27external\x27 for public access, \x27internal\x27 for UCAR network only\n"
    else base
  let withCnpg :=
    if enabled_addons.contains "cnpg" then
      withIngress ++ "\ncnpg:\n  enabled: true\n  instances: " ++
      acGetStr addon_config "cnpg_instances" (.int 3) ++
      "\n  storage:\n    size: " ++ acGetStr addon_config "cnpg_storage_size" (.str "20Gi") ++
      "\n  backup:\n    enabled: " ++ acGetLower addon_config "cnpg_backup_enabled" (.bool false) ++
      "\n    retentionPolicy: \"30d\"\n  \n  # App user credentials from External Secrets\n  appUser:\n    owner: " ++
      acGetStr addon_config "cnpg_app_owner" (.str "app_user") ++
      "\n    secretPath: " ++ acGetStr addon_config "cnpg_app_secret_path" (.str "secret/data/myapp/db") ++
      "\n    passwordKey: " ++ acGetStr addon_config "cnpg_app_password_key" (.str "password") ++
      "\n  \n  # Superuser credentials from External Secrets (optional)\n  superUser:\n    enabled: " ++
      acGetLower addon_config "cnpg_enable_superuser" (.bool false) ++
      "\n    secretPath: " ++ acGetStr addon_config "cnpg_superuser_secret_path" (.str "secret/data/myapp/db-superuser") ++
      "\n    usernameKey: " ++ acGetStr addon_config "cnpg_superuser_username_key" (.str "username") ++
      "\n    passwordKey: " ++ acGetStr addon_config "cnpg_superuser_password_key" (.str "password") ++ "\n"
    else withIngress
  let withDask :=
    if enabled_addons.contains "dask" then
      withCnpg ++ "\ndask:\n  enabled: true\n  scheduler:\n    port: 8786\n    dashboardPort: 8787\n  worker:\n    replicas: " ++
      acGetStr addon_config "worker_replicas" (.int 3) ++
      "\n    threads: " ++ acGetStr addon_config "worker_threads" (.int 4) ++
      "\n    memory: " ++ acGetStr addon_config "worker_memory" (.str "4Gi") ++ "\n"
    else withCnpg
  let withPersistence :=
    if enabled_addons.contains "persistence" then
      withDask ++ "\npersistence:\n  enabled: true\n  storageClass: ceph-kubepv\n  accessMode: " ++
      acGetStr addon_config "pv_access_mode" (.str "ReadWriteOnce") ++
      "\n  size: " ++ acGetStr addon_config "pv_storage_size" (.str "10Gi") ++
      "\n  mountPath: " ++ acGetStr addon_config "pv_mount_path" (.str "/data") ++ "\n"
    else withDask
  let withNfs :=
    if enabled_addons.contains "nfs" then
      withPersistence ++ "\nnfs:\n  enabled: true\n  server: " ++
      acGetStr addon_config "nfs_server" (.str "nfs.example.com") ++
      "\n  path: " ++ acGetStr addon_config "nfs_path" (.str "/export/data") ++
      "\n  mountPath: " ++ acGetStr addon_config "nfs_mount_path" (.str "/mnt/nfs") ++
      "\n  readOnly: " ++ acGetLower addon_config "nfs_readonly" (.bool false) ++ "\n"
    else withPersistence
  if enabled_addons.contains "external_secrets" then
    withNfs ++ "\nexternalSecrets:\n  enabled: true\n  secretPath: " ++
    acGetStr addon_config "secret_path" (.str "secret/data/myapp") ++
    "\n  backend: vault\n  vaultUrl: https://bao.k8s.ucar.edu\n"
  else withNfs

/-- Transcribed from chart_generator.py lines 293-377
(`generate_base_deployment`).  The first block (lines 328-351) is an
f-string in the source: its doubled braces come out as SINGLE braces in
the produced text (only the quadrupled ones around `metadata.name` and
`metadata.labels` come out doubled), which is reproduced literally
below.  The volume-mount / volume / envFrom items (lines 301-321) and
the resources block (lines 363-370) are plain Python strings, so their
doubled braces stay doubled. -/
def generate_base_deployment (_app_config : AppConfig) (enabled_addons : List String)
    (addon_config : List (String × PyValue)) : String :=
  let volume_mounts : List String :=
    (if enabled_addons.contains "persistence" then
      ["        - name: data\n          mountPath: " ++ acGetStr addon_config "pv_mount_path" (.str "/data")]
     else []) ++
    (if enabled_addons.contains "nfs" then
      let readonly_str := if pyTruthy (acGet addon_config "nfs_readonly" (.bool false)) then "\n          readOnly: true" else ""
      ["        - name: nfs\n          mountPath: " ++ acGetStr addon_config "nfs_mount_path" (.str "/mnt/nfs") ++ readonly_str]
     else [])
  let volumes : List String :=
    (if enabled_addons.contains "persistence" then
      ["      - name: data\n        persistentVolumeClaim:\n          claimName: \x7b\x7b include \"chart.fullname\" . \x7d\x7d-pvc"]
     else []) ++
    (if enabled_addons.contains "nfs" then
      ["      - name: nfs\n        persistentVolumeClaim:\n          claimName: \x7b\x7b include \"chart.fullname\" . \x7d\x7d-nfs-pvc"]
     else [])
  let env_from : List String :=
    if enabled_addons.contains "external_secrets" then
      ["        - secretRef:\n            name: \x7b\x7b include \"chart.fullname\" . \x7d\x7d-external-secret"]
    else []
  let volume_mounts_str := if !volume_mounts.isEmpty then pyJoin "\n" volume_mounts else ""
  let volumes_str := if !volumes.isEmpty then pyJoin "\n" volumes else ""
  let env_from_str := if !env_from.isEmpty then pyJoin "\n" env_from else ""
  let deployment :=
    "apiVersion: apps/v1\nkind: Deployment\nmetadata:\n  name: \x7b\x7b include \"chart.fullname\" . \x7d\x7d\n  labels:\n    \x7b\x7b- include \"chart.labels\" . | nindent 4 \x7d\x7d\nspec:\n  replicas: \x7b .Values.replicaCount \x7d\n  selector:\n    matchLabels:\n      \x7b- include \"chart.selectorLabels\" . | nindent 6 \x7d\n  template:\n    metadata:\n      labels:\n        \x7b- include \"chart.selectorLabels\" . | nindent 8 \x7d\n    spec:\n      containers:\n      - name: \x7b .Values.webapp.name \x7d\n        image: \"\x7b .Values.webapp.container.image \x7d\"\n        imagePullPolicy: IfNotPresent\n        ports:\n        - name: http\n          containerPort: \x7b .Values.webapp.container.port \x7d\n          protocol: TCP"
  let deployment := if !(env_from_str = "") then deployment ++ "\n        envFrom:\n" ++ env_from_str else deployment
  let deployment := if !(volume_mounts_str = "") then deployment ++ "\n        volumeMounts:\n" ++ volume_mounts_str else deployment
  let deployment := deployment ++ "\n        resources:\n          limits:\n            cpu: \"\x7b\x7b .Values.webapp.container.cpu \x7d\x7d\"\n            memory: \x7b\x7b .Values.webapp.container.memory \x7d\x7d\n          requests:\n            cpu: 100m\n            memory: 128Mi"
  if !(volumes_str = "") then deployment ++ "\n      volumes:\n" ++ volumes_str else deployment

/-- Modelled from the spec: the shared template-helper document
`templates/_helpers.tpl`.  Its producer `generate_helpers_tpl` lives in
`app/routes/helm_helpers.py`, which is not part of the provided source
tree; the spec only says it is one shared document defining the
fullname/label helpers every manifest reuses.  No claim depends on its
text, only on the file's presence, so it is modelled as an opaque
constant document. -/
def generate_helpers_tpl : String :=
  "\x7b\x7b/*\nExpand the name of the chart.\n*/\x7d\x7d\n\x7b\x7b- define \"chart.fullname\" -\x7d\x7d\n\x7b\x7b- .Release.Name \x7d\x7d\n\x7b\x7b- end \x7d\x7d\n\x7b\x7b- define \"chart.labels\" -\x7d\x7d\napp.kubernetes.io/name: \x7b\x7b .Release.Name \x7d\x7d\n\x7b\x7b- end \x7d\x7d\n\x7b\x7b- define \"chart.selectorLabels\" -\x7d\x7d\napp.kubernetes.io/name: \x7b\x7b .Release.Name \x7d\x7d\n\x7b\x7b- end \x7d\x7d\n"

/-- Transcribed from chart_generator.py lines 380-397 (generate_service): a constant manifest template returned verbatim. -/
def generate_service : String :=
  "apiVersion: v1\nkind: Service\nmetadata:\n  name: \x7b\x7b include \"chart.fullname\" . \x7d\x7d\n  labels:\n    \x7b\x7b- include \"chart.labels\" . | nindent 4 \x7d\x7d\nspec:\n  type: ClusterIP\n  ports:\n  - port: \x7b\x7b .Values.webapp.container.port \x7d\x7d\n    targetPort: http\n    protocol: TCP\n    name: http\n  selector:\n    \x7b\x7b- include \"chart.selectorLabels\" . | nindent 4 \x7d\x7d\n"

/-- Transcribed from chart_generator.py lines 400-429 (generate_ingress): a constant manifest template returned verbatim. -/
def generate_ingress : String :=
  "\x7b\x7b- if .Values.ingress.enabled -\x7d\x7d\napiVersion: networking.k8s.io/v1\nkind: Ingress\nmetadata:\n  name: \x7b\x7b include \"chart.fullname\" . \x7d\x7d\n  labels:\n    \x7b\x7b- include \"chart.labels\" . | nindent 4 \x7d\x7d\n  annotations:\n    cert-manager.io/cluster-issuer: \"incommon\"\nspec:\n  ingressClassName: nginx-\x7b\x7b .Values.ingress.access \x7d\x7d\n  tls:\n  - hosts:\n    - \x7b\x7b .Values.webapp.tls.fqdn \x7d\x7d\n    secretName: \x7b\x7b .Values.webapp.tls.secretName \x7d\x7d\n  rules:\n  - host: \x7b\x7b .Values.webapp.tls.fqdn \x7d\x7d\n    http:\n      paths:\n      - path: \x7b\x7b .Values.webapp.path \x7d\x7d\n        pathType: Prefix\n        backend:\n          service:\n            name: \x7b\x7b include \"chart.fullname\" . \x7d\x7d\n            port:\n              number: \x7b\x7b .Values.webapp.container.port \x7d\x7d\n\x7b\x7b- end \x7d\x7d\n"

/-- Transcribed from chart_generator.py lines 432-480 (generate_cnpg_cluster): a constant manifest template returned verbatim. -/
def generate_cnpg_cluster : String :=
  "\x7b\x7b- if .Values.cnpg.enabled \x7d\x7d\napiVersion: postgresql.cnpg.io/v1\nkind: Cluster\nmetadata:\n  name: \x7b\x7b include \"chart.fullname\" . \x7d\x7d-cnpg\n  labels:\n    \x7b\x7b- include \"chart.labels\" . | nindent 4 \x7d\x7d\nspec:\n  instances: \x7b\x7b .Values.cnpg.instances \x7d\x7d\n  \n  postgresql:\n    parameters:\n      max_connections: \"100\"\n      shared_buffers: \"256MB\"\n  \n  storage:\n    size: \x7b\x7b .Values.cnpg.storage.size \x7d\x7d\n    storageClass: ceph-kubepv\n  \n  \x7b\x7b- if .Values.cnpg.superUser.enabled \x7d\x7d\n  enableSuperuserAccess: true\n  superuserSecret:\n    name: \x7b\x7b include \"chart.fullname\" . \x7d\x7d-superuser\n  \x7b\x7b- end \x7d\x7d\n  \n  bootstrap:\n    initdb:\n      database: \x7b\x7b .Values.cnpg.appUser.owner \x7d\x7d\n      owner: \x7b\x7b .Values.cnpg.appUser.owner \x7d\x7d\n      secret:\n        name: \x7b\x7b include \"chart.fullname\" . \x7d\x7d-app-user\n  \n  \x7b\x7b- if .Values.cnpg.backup.enabled \x7d\x7d\n  backup:\n    retentionPolicy: \x7b\x7b .Values.cnpg.backup.retentionPolicy \x7d\x7d\n    barmanObjectStore:\n      destinationPath: s3://cirrus-backups/\x7b\x7b include \"chart.fullname\" . \x7d\x7d-cnpg\n      s3Credentials:\n        accessKeyId:\n          name: backup-credentials\n          key: ACCESS_KEY_ID\n        secretAccessKey:\n          name: backup-credentials\n          key: SECRET_ACCESS_KEY\n  \x7b\x7b- end \x7d\x7d\n\x7b\x7b- end \x7d\x7d\n"

/-- Transcribed from chart_generator.py lines 483-509 (generate_cnpg_app_user_secret): a constant manifest template returned verbatim. -/
def generate_cnpg_app_user_secret : String :=
  "\x7b\x7b- if .Values.cnpg.enabled \x7d\x7d\napiVersion: external-secrets.io/v1beta1\nkind: ExternalSecret\nmetadata:\n  name: \x7b\x7b include \"chart.fullname\" . \x7d\x7d-app-user-esos\n  labels:\n    \x7b\x7b- include \"chart.labels\" . | nindent 4 \x7d\x7d\nspec:\n  refreshInterval: 1h\n  secretStoreRef:\n    name: user-ro\n    kind: SecretStore\n  target:\n    name: \x7b\x7b include \"chart.fullname\" . \x7d\x7d-app-user\n    type: kubernetes.io/basic-auth\n  data:\n    - secretKey: username\n      remoteRef:\n        value: \x7b\x7b .Values.cnpg.appUser.owner \x7d\x7d\n    - secretKey: password\n      remoteRef:\n        key: \x7b\x7b .Values.cnpg.appUser.secretPath \x7d\x7d\n        property: \x7b\x7b .Values.cnpg.appUser.passwordKey \x7d\x7d\n\x7b\x7b- end \x7d\x7d\n"

/-- Transcribed from chart_generator.py lines 512-539 (generate_cnpg_superuser_secret): a constant manifest template returned verbatim. -/
def generate_cnpg_superuser_secret : String :=
  "\x7b\x7b- if and .Values.cnpg.enabled .Values.cnpg.superUser.enabled \x7d\x7d\napiVersion: external-secrets.io/v1beta1\nkind: ExternalSecret\nmetadata:\n  name: \x7b\x7b include \"chart.fullname\" . \x7d\x7d-superuser-esos\n  labels:\n    \x7b\x7b- include \"chart.labels\" . | nindent 4 \x7d\x7d\nspec:\n  refreshInterval: 1h\n  secretStoreRef:\n    name: user-ro\n    kind: SecretStore\n  target:\n    name: \x7b\x7b include \"chart.fullname\" . \x7d\x7d-superuser\n    type: kubernetes.io/basic-auth\n  data:\n    - secretKey: username\n      remoteRef:\n        key: \x7b\x7b .Values.cnpg.superUser.secretPath \x7d\x7d\n        property: \x7b\x7b .Values.cnpg.superUser.usernameKey \x7d\x7d\n    - secretKey: password\n      remoteRef:\n        key: \x7b\x7b .Values.cnpg.superUser.secretPath \x7d\x7d\n        property: \x7b\x7b .Values.cnpg.superUser.passwordKey \x7d\x7d\n\x7b\x7b- end \x7d\x7d\n"

/-- Transcribed from chart_generator.py lines 542-575 (generate_dask_scheduler): a constant manifest template returned verbatim. -/
def generate_dask_scheduler : String :=
  "\x7b\x7b- if .Values.dask.enabled \x7d\x7d\napiVersion: apps/v1\nkind: Deployment\nmetadata:\n  name: \x7b\x7b include \"chart.fullname\" . \x7d\x7d-dask-scheduler\n  labels:\n    \x7b\x7b- include \"chart.labels\" . | nindent 4 \x7d\x7d\n    app.kubernetes.io/component: dask-scheduler\nspec:\n  replicas: 1\n  selector:\n    matchLabels:\n      \x7b\x7b- include \"chart.selectorLabels\" . | nindent 6 \x7d\x7d\n      app.kubernetes.io/component: dask-scheduler\n  template:\n    metadata:\n      labels:\n        \x7b\x7b- include \"chart.selectorLabels\" . | nindent 8 \x7d\x7d\n        app.kubernetes.io/component: dask-scheduler\n    spec:\n      containers:\n      - name: scheduler\n        image: \"\x7b\x7b .Values.webapp.container.image \x7d\x7d\"\n        command:\n        - dask-scheduler\n        ports:\n        - containerPort: \x7b\x7b .Values.dask.scheduler.port \x7d\x7d\n          name: scheduler\n        - containerPort: \x7b\x7b .Values.dask.scheduler.dashboardPort \x7d\x7d\n          name: dashboard\n\x7b\x7b- end \x7d\x7d\n"

/-- Transcribed from chart_generator.py lines 578-601 (generate_dask_scheduler_service): a constant manifest template returned verbatim. -/
def generate_dask_scheduler_service : String :=
  "\x7b\x7b- if .Values.dask.enabled \x7d\x7d\napiVersion: v1\nkind: Service\nmetadata:\n  name: \x7b\x7b include \"chart.fullname\" . \x7d\x7d-dask-scheduler\n  labels:\n    \x7b\x7b- include \"chart.labels\" . | nindent 4 \x7d\x7d\n    app.kubernetes.io/component: dask-scheduler\nspec:\n  type: ClusterIP\n  ports:\n  - port: \x7b\x7b .Values.dask.scheduler.port \x7d\x7d\n    targetPort: scheduler\n    name: scheduler\n  - port: \x7b\x7b .Values.dask.scheduler.dashboardPort \x7d\x7d\n    targetPort: dashboard\n    name: dashboard\n  selector:\n    \x7b\x7b- include \"chart.selectorLabels\" . | nindent 4 \x7d\x7d\n    app.kubernetes.io/component: dask-scheduler\n\x7b\x7b- end \x7d\x7d\n"

/-- Transcribed from chart_generator.py lines 604-642 (generate_dask_workers): a constant manifest template returned verbatim. -/
def generate_dask_workers : String :=
  "\x7b\x7b- if .Values.dask.enabled \x7d\x7d\napiVersion: apps/v1\nkind: Deployment\nmetadata:\n  name: \x7b\x7b include \"chart.fullname\" . \x7d\x7d-dask-workers\n  labels:\n    \x7b\x7b- include \"chart.labels\" . | nindent 4 \x7d\x7d\n    app.kubernetes.io/component: dask-worker\nspec:\n  replicas: \x7b\x7b .Values.dask.worker.replicas \x7d\x7d\n  selector:\n    matchLabels:\n      \x7b\x7b- include \"chart.selectorLabels\" . | nindent 6 \x7d\x7d\n      app.kubernetes.io/component: dask-worker\n  template:\n    metadata:\n      labels:\n        \x7b\x7b- include \"chart.selectorLabels\" . | nindent 8 \x7d\x7d\n        app.kubernetes.io/component: dask-worker\n    spec:\n      containers:\n      - name: worker\n        image: \"\x7b\x7b .Values.webapp.container.image \x7d\x7d\"\n        command:\n        - dask-worker\n        - \x7b\x7b include \"chart.fullname\" . \x7d\x7d-dask-scheduler:\x7b\x7b .Values.dask.scheduler.port \x7d\x7d\n        - -\x2dnthreads\n        - \"\x7b\x7b .Values.dask.worker.threads \x7d\x7d\"\n        - -\x2dmemory-limit\n        - \"\x7b\x7b .Values.dask.worker.memory \x7d\x7d\"\n        resources:\n          limits:\n            memory: \x7b\x7b .Values.dask.worker.memory \x7d\x7d\n          requests:\n            memory: \x7b\x7b .Values.dask.worker.memory \x7d\x7d\n\x7b\x7b- end \x7d\x7d\n"

/-- Transcribed from chart_generator.py lines 645-662 (generate_pvc): a constant manifest template returned verbatim. -/
def generate_pvc : String :=
  "\x7b\x7b- if .Values.persistence.enabled \x7d\x7d\napiVersion: v1\nkind: PersistentVolumeClaim\nmetadata:\n  name: \x7b\x7b include \"chart.fullname\" . \x7d\x7d-pvc\n  labels:\n    \x7b\x7b- include \"chart.labels\" . | nindent 4 \x7d\x7d\nspec:\n  accessModes:\n  - \x7b\x7b .Values.persistence.accessMode \x7d\x7d\n  resources:\n    requests:\n      storage: \x7b\x7b .Values.persistence.size \x7d\x7d\n  storageClassName: \x7b\x7b .Values.persistence.storageClass \x7d\x7d\n\x7b\x7b- end \x7d\x7d\n"

/-- Transcribed from chart_generator.py lines 665-693 (generate_nfs_pv): a constant manifest template returned verbatim. -/
def generate_nfs_pv : String :=
  "\x7b\x7b- if .Values.nfs.enabled \x7d\x7d\napiVersion: v1\nkind: PersistentVolume\nmetadata:\n  name: \x7b\x7b include \"chart.fullname\" . \x7d\x7d-nfs-pv\n  labels:\n    \x7b\x7b- include \"chart.labels\" . | nindent 4 \x7d\x7d\nspec:\n  capacity:\n    storage: 100Gi\n  accessModes:\n  \x7b\x7b- if .Values.nfs.readOnly \x7d\x7d\n  - ReadOnlyMany\n  \x7b\x7b- else \x7d\x7d\n  - ReadWriteMany\n  \x7b\x7b- end \x7d\x7d\n  nfs:\n    server: \x7b\x7b .Values.nfs.server \x7d\x7d\n    path: \x7b\x7b .Values.nfs.path \x7d\x7d\n  mountOptions:\n  - vers=4\n  - minorversion=1\n  \x7b\x7b- if .Values.nfs.readOnly \x7d\x7d\n  - ro\n  \x7b\x7b- end \x7d\x7d\n\x7b\x7b- end \x7d\x7d\n"

/-- Transcribed from chart_generator.py lines 696-717 (generate_nfs_pvc): a constant manifest template returned verbatim. -/
def generate_nfs_pvc : String :=
  "\x7b\x7b- if .Values.nfs.enabled \x7d\x7d\napiVersion: v1\nkind: PersistentVolumeClaim\nmetadata:\n  name: \x7b\x7b include \"chart.fullname\" . \x7d\x7d-nfs-pvc\n  labels:\n    \x7b\x7b- include \"chart.labels\" . | nindent 4 \x7d\x7d\nspec:\n  accessModes:\n  \x7b\x7b- if .Values.nfs.readOnly \x7d\x7d\n  - ReadOnlyMany\n  \x7b\x7b- else \x7d\x7d\n  - ReadWriteMany\n  \x7b\x7b- end \x7d\x7d\n  resources:\n    requests:\n      storage: 100Gi\n  volumeName: \x7b\x7b include \"chart.fullname\" . \x7d\x7d-nfs-pv\n\x7b\x7b- end \x7d\x7d\n"

/-- Transcribed from chart_generator.py lines 720-741 (generate_external_secret): a constant manifest template returned verbatim. -/
def generate_external_secret : String :=
  "\x7b\x7b- if .Values.externalSecrets.enabled \x7d\x7d\napiVersion: external-secrets.io/v1beta1\nkind: ExternalSecret\nmetadata:\n  name: \x7b\x7b include \"chart.fullname\" . \x7d\x7d-external-secret\n  labels:\n    \x7b\x7b- include \"chart.labels\" . | nindent 4 \x7d\x7d\nspec:\n  refreshInterval: 1h\n  secretStoreRef:\n    name: vault-backend\n    kind: ClusterSecretStore\n  target:\n    name: \x7b\x7b include \"chart.fullname\" . \x7d\x7d-external-secret\n  data:\n  - secretKey: credentials\n    remoteRef:\n      key: \x7b\x7b .Values.externalSecrets.secretPath \x7d\x7d\n\x7b\x7b- end \x7d\x7d\n"

/-!
The README generator (chart_generator.py lines 744-944).  The function
builds the README text and then returns `readme.format(app_name=app_name)`
(line 944; everything after that `return` is unreachable duplicate code
and is not part of the embedding).  Crucially, the last block of text
(lines 885-942) is a PLAIN Python string, not an f-string, so its
`\x7bapp_name\x7d` and `\x7bdatetime.now().strftime(...)\x7d` occurrences reach
`str.format` as literal replacement fields.  The plain literal is split
below into the named brace-free pieces `rmT1`..`rmT8` around those
fields, so that proofs can walk the `str.format` scanner chunk by
chunk; concatenating the pieces in order reproduces the Python literal
exactly.
-/

/-- The literal replacement field `\x7bapp_name\x7d` of the README tail. -/
def anFld : String := "\x7bapp_name\x7d"

/-- The literal replacement field `\x7bdatetime.now().strftime(\x27%Y-%m-%d\x27)\x7d`
of the README tail (line 941).  Its `str.format` argument name is
`datetime`, which is not among the keyword arguments of the
`format(app_name=...)` call. -/
def dtFld : String := "\x7bdatetime.now().strftime(\x27%Y-%m-%d\x27)\x7d"

/-- README tail piece (lines 885-892 up to the first field). -/
def rmT1 : String := "## Common Tasks\n\n### Update Application\n\n```bash\n# Edit values.yaml with new image tag\n# Then upgrade:\nhelm upgrade "

/-- README tail piece (lines 892-899). -/
def rmT2 : String := " .\n```\n\n### Scale Replicas\n\n```bash\n# Edit values.yaml and change replicaCount\nhelm upgrade "

/-- README tail piece (lines 899-905). -/
def rmT3 : String := " .\n```\n\n### View Logs\n\n```bash\nkubectl logs -f -l app.kubernetes.io/name="

/-- README tail piece (lines 905-911). -/
def rmT4 : String := "\n```\n\n### Check Resource Usage\n\n```bash\nkubectl top pods -l app.kubernetes.io/name="

/-- README tail piece (lines 911-919). -/
def rmT5 : String := "\n```\n\n## Troubleshooting\n\n### Pods Not Starting\n\n```bash\nkubectl describe pod -l app.kubernetes.io/name="

/-- README tail piece (line 920). -/
def rmT6 : String := "\nkubectl logs -l app.kubernetes.io/name="

/-- README tail piece (lines 921-931). -/
def rmT7 : String := "\n```\n\nCommon causes:\n- Image doesn\x27t exist or isn\x27t accessible\n- Application crashes on startup (check logs)\n- Resource limits too low\n\n### Can\x27t Access Application\n\n- Wait 5-10 minutes for DNS propagation\n- Verify ingress: `kubectl get ingress "

/-- README tail piece (lines 931-941). -/
def rmT8 : String := "`\n- Check certificate: `kubectl get certificate`\n\n## Support\n\n- **CIRRUS Docs**: https://ncar-hpc-docs.readthedocs.io/en/latest/compute-systems/cirrus/\n- **Support**: [Create Jira ticket](https://jira.ucar.edu/secure/CreateIssueDetails!init.jspa?pid=18470&issuetype=10903)\n\n-\x2d-\n\n*Generated by CIRRUS Helm Chart Generator on "

/-- The whole plain-string README tail (lines 885-942), with its seven
`\x7bapp_name\x7d` fields and the final datetime field. -/
def readme_tail : String :=
  rmT1 ++ anFld ++ rmT2 ++ anFld ++ rmT3 ++ anFld ++ rmT4 ++ anFld ++ rmT5 ++ anFld ++
  rmT6 ++ anFld ++ rmT7 ++ anFld ++ rmT8 ++ dtFld ++ "*\n"

/-- README literal of lines 853-866 (plain string, brace free). -/
def rmSwitching : String := "```\n\n### Switching Access Type\n\nTo change between external (public) and internal (UCAR-only) access, edit `values.yaml`:\n\n```yaml\ningress:\n  access: internal  # or \x27external\x27\n```\n\nThe ingress class is automatically set to `nginx-external` or `nginx-internal`.\n\n"

/-- README literal of lines 870-874 (database section, plain string). -/
def rmDb : String := "### Database Connection\n\nCloudNativePG database credentials are automatically managed. Check the pod environment for connection details.\n\n"

/-- README literal of lines 879-883 (NFS read-only warning, plain string). -/
def rmNfsRo : String := "### NFS Read-Only Access\n\nNFS volume is mounted read-only. Write operations will fail. For write access, disable the read-only option or use a persistent volume.\n\n"

/-- Literal pieces of the README text of lines 748-883 (in order of
first appearance; identical Python literals are reused). -/

def rp01 : String := "- **External Access**: https://"

/-- README literal piece. -/
def rp02 : String := " ("

/-- README literal piece. -/
def rp03 : String := ")"

/-- README literal piece. -/
def rp04 : String := ".k8s.ucar.edu"

/-- README literal piece. -/
def rp05 : String := "- **CloudNativePG**: "

/-- README literal piece. -/
def rp06 : String := "-instance PostgreSQL cluster"

/-- README literal piece. -/
def rp07 : String := "- **Dask**: Distributed computing cluster with "

/-- README literal piece. -/
def rp08 : String := " workers"

/-- README literal piece. -/
def rp09 : String := "- **Persistent Volume**: "

/-- README literal piece. -/
def rp10 : String := " storage ("

/-- README literal piece. -/
def rp11 : String := "single-pod"

/-- README literal piece. -/
def rp12 : String := "multi-pod"

/-- README literal piece. -/
def rp13 : String := " access)"

/-- README literal piece. -/
def rp14 : String := "- **NFS**: Shared storage from "

/-- README literal piece. -/
def rp15 : String := "read-only"

/-- README literal piece. -/
def rp16 : String := "read-write"

/-- README literal piece. -/
def rp17 : String := "- **External Secrets**: Vault integration"

/-- README literal piece. -/
def rp18 : String := "# "

/-- README literal piece. -/
def rp19 : String := "\n\nHelm chart for deploying to CIRRUS\n\n## Quick Start\n\n```bash\n# Install\nhelm install "

/-- README literal piece. -/
def rp20 : String := " .\n\n# Check status\nkubectl get pods -l app.kubernetes.io/name="

/-- README literal piece. -/
def rp21 : String := "\n```"

/-- README literal piece. -/
def rp22 : String := "\n\nView at: **https://"

/-- README literal piece. -/
def rp23 : String := "**\n"

/-- README literal piece. -/
def rp24 : String := "\n\n## What\x27s Deployed\n\n- **Application**: "

/-- README literal piece. -/
def rp25 : String := " replica(s) on port "

/-- README literal piece. -/
def rp26 : String := "\n"

/-- README literal piece. -/
def rp27 : String := "\n\n## Configuration\n\nEdit `values.yaml` to customize your deployment.\n\n### Key Settings\n\n```yaml\nreplicaCount: "

/-- README literal piece. -/
def rp28 : String := "  # Recommended: 2+ for zero-downtime during maintenance\n\nwebapp:\n  name: "

/-- README literal piece. -/
def rp29 : String := "\n  tls:\n    fqdn: "

/-- README literal piece. -/
def rp30 : String := "\n  container:\n    image: "

/-- README literal piece. -/
def rp31 : String := ":"

/-- README literal piece. -/
def rp32 : String := "\n    port: "

/-- README literal piece. -/
def rp33 : String := "\n    memory: 1G\n    cpu: 2\n"

/-- README literal piece. -/
def rp34 : String := "\ningress:\n  enabled: true\n  access: "

/-- README literal piece. -/
def rp35 : String := "  # Switch between \x27external\x27 or \x27internal\x27\n"

/-- README literal piece. -/
def rp36 : String := "latest"

/-- Transcribed from chart_generator.py lines 765-791: the
`components_list` bullet entries of the README, one per enabled add-on,
in registry order. -/
def readme_components (enabled_addons : List String) (addon_config : List (String × PyValue)) : List String :=
  (if enabled_addons.contains "cnpg" then
    [rp05 ++ acGetStr addon_config "cnpg_instances" (.int 3) ++ rp06]
   else []) ++
  (if enabled_addons.contains "dask" then
    [rp07 ++ acGetStr addon_config "worker_replicas" (.int 3) ++ rp08]
   else []) ++
  (if enabled_addons.contains "persistence" then
    [rp09 ++ acGetStr addon_config "pv_storage_size" (.str "10Gi") ++ rp10 ++
     (if acGet addon_config "pv_access_mode" (.str "ReadWriteOnce") = .str "ReadWriteOnce" then rp11 else rp12) ++
     rp13]
   else []) ++
  (if enabled_addons.contains "nfs" then
    [rp14 ++ acGetStr addon_config "nfs_server" (.str "nfs.example.com") ++ rp02 ++
     (if pyTruthy (acGet addon_config "nfs_readonly" (.bool false)) then rp15 else rp16) ++ rp03]
   else []) ++
  (if enabled_addons.contains "external_secrets" then [rp17] else [])

/-- Transcribed from chart_generator.py lines 748-883: the README text
accumulated BEFORE the plain tail literal of line 885 is appended.
Variables are spliced by f-strings (integers through `str()`); every
literal chunk is one of the `rp*` pieces above, concatenated in source
order. -/
def readme_pre (app_config : AppConfig) (enabled_addons : List String)
    (addon_config : List (String × PyValue)) : String :=
  let app_name := app_config.app_name
  let image_parts := pyRsplit1 app_config.image ':'
  let image_repo := image_parts.headD ""
  let image_tag := if image_parts.length > 1 then image_parts.getD 1 "" else rp36
  let replica_count := app_config.replicas
  let port := app_config.port
  let ingress_enabled := app_config.enable_ingress
  let access_type := app_config.ingress_type
  let fqdn := if ingress_enabled then app_config.domain else app_name ++ rp04
  let ingress_line :=
    if ingress_enabled then rp01 ++ app_config.domain ++ rp02 ++ access_type ++ rp03 else ""
  let components_text := pyJoin "\n" (readme_components enabled_addons addon_config)
  let readme := rp18 ++ app_name ++ rp19 ++ app_name ++ rp20 ++ app_name ++ rp21
  let readme := if ingress_enabled then readme ++ rp22 ++ fqdn ++ rp23 else readme
  let readme := readme ++ rp24 ++ pyIntStr replica_count ++ rp25 ++ pyIntStr port ++ rp26 ++ ingress_line ++ rp26
  let readme := if !(components_text = "") then readme ++ components_text ++ rp26 else readme
  let readme :=
    readme ++ rp27 ++ pyIntStr replica_count ++ rp28 ++ app_name ++ rp29 ++ fqdn ++ rp30 ++
    image_repo ++ rp31 ++ image_tag ++ rp32 ++ pyIntStr port ++ rp33
  let readme := if ingress_enabled then readme ++ rp34 ++ access_type ++ rp35 else readme
  let readme := readme ++ rmSwitching
  let readme := if enabled_addons.contains "cnpg" then readme ++ rmDb else readme
  let readme :=
    if enabled_addons.contains "nfs" && pyTruthy (acGet addon_config "nfs_readonly" (.bool false)) then
      readme ++ rmNfsRo
    else readme
  readme

/-- Transcribed from chart_generator.py lines 744-944
(`generate_modular_readme`): builds the README text (`readme_pre`
followed by the plain tail of lines 885-942) and finishes with
`readme.format(app_name=app_name)` (line 944; everything after that
`return` is unreachable duplicate code and not part of the embedding).
The `datetime` import of line 746 is executed but `datetime.now()` is
never CALLED on this path: its textual occurrence sits inside a plain
(non-f) string, so the function reads no clock; instead `str.format`
meets that literal field.  The result is `Except`-valued, mirroring the
exception `format` raises. -/
def generate_modular_readme (app_config : AppConfig) (enabled_addons : List String)
    (addon_config : List (String × PyValue)) : Except PyErr String :=
  pyFormat1 (readme_pre app_config enabled_addons addon_config ++ readme_tail)
    "app_name" app_config.app_name

/-- Transcribed from chart_generator.py lines 118-161: the ordered file
set `generate_modular_chart` builds BEFORE its final `README.md`
insertion (a Python dict with string keys, modelled as an ordered
association list; all keys are distinct by construction). -/
def chartFilesBeforeReadme (app_config : AppConfig) (enabled_addons : List String)
    (addon_config : List (String × PyValue)) : List (String × String) :=
  [("Chart.yaml", generate_chart_yaml app_config.app_name),
   ("values.yaml", generate_modular_values app_config enabled_addons addon_config),
   ("templates/_helpers.tpl", generate_helpers_tpl),
   ("templates/deployment.yaml", generate_base_deployment app_config enabled_addons addon_config),
   ("templates/service.yaml", generate_service)] ++
  (if app_config.enable_ingress then [("templates/ingress.yaml", generate_ingress)] else []) ++
  (if enabled_addons.contains "cnpg" then
    [("templates/cnpg-cluster.yaml", generate_cnpg_cluster),
     ("templates/cnpg-app-user-secret.yaml", generate_cnpg_app_user_secret),
     ("templates/cnpg-superuser-secret.yaml", generate_cnpg_superuser_secret)]
   else []) ++
  (if enabled_addons.contains "dask" then
    [("templates/dask-scheduler-deployment.yaml", generate_dask_scheduler),
     ("templates/dask-scheduler-service.yaml", generate_dask_scheduler_service),
     ("templates/dask-workers-deployment.yaml", generate_dask_workers)]
   else []) ++
  (if enabled_addons.contains "persistence" then [("templates/pvc.yaml", generate_pvc)] else []) ++
  (if enabled_addons.contains "nfs" then
    [("templates/nfs-pv.yaml", generate_nfs_pv), ("templates/nfs-pvc.yaml", generate_nfs_pvc)]
   else []) ++
  (if enabled_addons.contains "external_secrets" then
    [("templates/external-secret.yaml", generate_external_secret)]
   else [])

/-- Transcribed from chart_generator.py lines 118-163
(`generate_modular_chart`): assembles the file set and finally inserts
`README.md`.  Because `generate_modular_readme` is `Except`-valued (its
`str.format` call can raise), the whole chart generation is
`Except`-valued: a raised exception aborts the function before any file
set is returned to the caller. -/
def generate_modular_chart (app_config : AppConfig) (enabled_addons : List String)
    (addon_config : List (String × PyValue)) : Except PyErr (List (String × String)) :=
  match generate_modular_readme app_config enabled_addons addon_config with
  | .error e => .error e
  | .ok readme => .ok (chartFilesBeforeReadme app_config enabled_addons addon_config ++ [("README.md", readme)])

/-!
The request boundary of `generate_helm` (chart_generator.py lines
48-115): extraction of the base configuration and of the free-form
add-on fields from the JSON body, then validation, then chart assembly.
The request body is modelled as an ordered association list of JSON
values (`request.json`). -/

/-- Python `data.get(k, d)` on the request dictionary. -/
def dataGet (data : List (String × PyValue)) (k : String) (d : PyValue) : PyValue :=
  acGet data k d

/-- The keys the extraction loop of lines 70-81 skips (they belong to
the base config / delivery options, not to `addon_config`). -/
def appConfigKeys : List String :=
  ["app_name", "image", "replicas", "port",
   "enable_ingress", "ingress_type", "domain", "enabled_addons",
   "output_format", "github_token", "github_repo", "github_branch"]

/-- The add-on fields the loop converts with `int(v) if v else None`
(line 75). -/
def intFields : List String := ["cnpg_instances", "worker_replicas", "worker_threads"]

/-- The add-on fields the loop converts with
`v == "true" if isinstance(v, str) else bool(v)` (line 78). -/
def boolFields : List String := ["cnpg_backup_enabled", "nfs_readonly", "cnpg_enable_superuser"]

/-- Transcribed from chart_generator.py line 79: the boolean coercion
applied to `cnpg_backup_enabled`, `nfs_readonly` and
`cnpg_enable_superuser`.  A string is `true` exactly when it equals the
lowercase text `true`; every non-string is coerced by `bool(v)`. -/
def coerce_bool_field : PyValue → Bool
  | .str s => s == "true"
  | .int n => pyTruthy (.int n)
  | .bool b => pyTruthy (.bool b)
  | .pynull => pyTruthy .pynull
  | .list l => pyTruthy (.list l)

/-- String content of a raw JSON field that the code treats as a
string; a non-string (absent field modelled as `None`) is collapsed to
the empty string, which has the same truthiness and is the only way a
non-string value is observed by the claims considered here. -/
def strField (v : PyValue) : String :=
  match v with
  | .str s => s
  | _ => ""

/-- Transcribed from chart_generator.py lines 55-63: the `app_config`
dictionary.  The two `int(...)` coercions of `replicas` and `port` can
raise, so the extraction is `Except`-valued. -/
def extract_app_config (data : List (String × PyValue)) : Except PyErr AppConfig := do
  let replicas ← pyIntOf (dataGet data "replicas" (.int 2))
  let port ← pyIntOf (dataGet data "port" (.int 8080))
  .ok { app_name := strField (dataGet data "app_name" .pynull)
        image := strField (dataGet data "image" .pynull)
        replicas := replicas
        port := port
        enable_ingress := pyTruthy (dataGet data "enable_ingress" (.bool false))
        ingress_type := strField (dataGet data "ingress_type" (.str "external"))
        domain := strField (dataGet data "domain" (.str "")) }

/-- Transcribed from chart_generator.py line 66: the enabled add-on
identifiers (`data.get("enabled_addons", [])`). -/
def extract_enabled_addons (data : List (String × PyValue)) : List String :=
  match dataGet data "enabled_addons" (.list []) with
  | .list l => l
  | _ => []

/-- Transcribed from chart_generator.py lines 69-81: the extraction
loop over every request key outside `appConfigKeys`.  Numeric fields
are converted with `int(v) if v else None` (an unparsable non-empty
string raises `ValueError`, a falsy value is stored as `None`), the
three boolean fields with `coerce_bool_field`, and everything else is
stored raw. -/
def extract_addon_config : List (String × PyValue) → Except PyErr (List (String × PyValue))
  | [] => .ok []
  | (k, v) :: rest =>
      if appConfigKeys.contains k then extract_addon_config rest
      else if intFields.contains k then
        if pyTruthy v then
          match pyIntOf v with
          | .ok n => (extract_addon_config rest).map (fun t => (k, .int n) :: t)
          | .error e => .error e
        else (extract_addon_config rest).map (fun t => (k, .pynull) :: t)
      else if boolFields.contains k then
        (extract_addon_config rest).map (fun t => (k, .bool (coerce_bool_field v)) :: t)
      else (extract_addon_config rest).map (fun t => (k, v) :: t)

/-- Outcome of one `generate_helm` request (zip output path): a 400
validation response, an uncaught Python exception (Flask turns it into
a 500), or the generated files delivered as a zip named after the
application. -/
inductive HelmResult where
  | validationError (msg : String)
  | pyError (e : PyErr)
  | chartZip (app_name : String) (files : List (String × String))
deriving DecidableEq

/-- Transcribed from chart_generator.py lines 48-98 (`generate_helm`,
zip output path).  Order matters and is preserved: the base config is
extracted first (its `int()` calls can raise), then the add-on loop
runs (its `int()` calls can raise), then the required-field validation
of lines 84-85 runs (`App name and image are required` — note it does
NOT look at ingress or domain), and only then is the chart assembled.
The GitHub delivery path (lines 100-113) is outside the claims
considered here. -/
def generate_helm (data : List (String × PyValue)) : HelmResult :=
  match extract_app_config data with
  | .error e => .pyError e
  | .ok app_config =>
      match extract_addon_config data with
      | .error e => .pyError e
      | .ok addon_config =>
          let enabled_addons := extract_enabled_addons data
          if app_config.app_name = "" || app_config.image = "" then
            .validationError "App name and image are required"
          else
            match generate_modular_chart app_config enabled_addons addon_config with
            | .error e => .pyError e
            | .ok files => .chartZip app_config.app_name files

/-!
Status aggregation (app/main/views.py lines 26-95, route `/status`).
For each page the route fetches the public status page; on a transport
exception, a non-200 response, or a missing `preloadData` blob the page
status is UNKNOWN.  Otherwise the page status starts as UP and the code
iterates over the monitors: for each monitor it fetches a badge; a
badge containing `>Up<` / `>Down<` classifies the monitor (anything
else UNKNOWN) and the monitor is appended to the page's monitor list,
with a DOWN monitor overwriting the page status with DOWN; a failed
badge fetch (non-200) appends nothing and overwrites the page status
with UNKNOWN.  Later writes win: the loop is a left fold.  A transport
EXCEPTION during a badge fetch (`BadgeFetch.exc`) is caught by the
per-page handler of lines 87-91: it aborts the remainder of the loop
and leaves the page status UNKNOWN.
-/

/-- Outcome of fetching one monitor's status badge (views.py lines
60-81): a 200 response with the badge SVG text, or a non-200 response. -/
inductive BadgeFetch where
  | ok (name : String) (svg : String)
  | fail (name : String)
  | exc (name : String)
deriving DecidableEq

/-- Outcome of fetching one status page (views.py lines 36-48). -/
inductive PageFetch where
  | httpFail
  | non200
  | noPreload
  | ok (badges : List BadgeFetch)
deriving DecidableEq

/-- Transcribed from views.py lines 66-71: classify one badge SVG. -/
def classify_badge (svg : String) : String :=
  if strContains svg ">Up<" then "UP"
  else if strContains svg ">Down<" then "DOWN"
  else "UNKNOWN"

/-- Transcribed from views.py lines 51-81: the monitor loop, a left
fold over the badge fetches starting from status `UP` and an empty
monitor list. -/
def page_status_fold : List BadgeFetch → String × List (String × String) → String × List (String × String)
  | [], st => st
  | .ok name svg :: rest, (status, monitors) =>
      let monitor_status := classify_badge svg
      let status := if monitor_status = "DOWN" then "DOWN" else status
      page_status_fold rest (status, monitors ++ [(name, monitor_status)])
  | .fail _ :: rest, (_, monitors) =>
      page_status_fold rest ("UNKNOWN", monitors)
  | .exc _ :: _, (_, monitors) => ("UNKNOWN", monitors)

/-- Transcribed from views.py lines 33-91: the status computed for one
page (`page["status"]` and `page["monitors"]`); every failure shape of
the page fetch yields UNKNOWN with no monitor list. -/
def page_status : PageFetch → String × List (String × String)
  | .httpFail => ("UNKNOWN", [])
  | .non200 => ("UNKNOWN", [])
  | .noPreload => ("UNKNOWN", [])
  | .ok badges => page_status_fold badges ("UP", [])

/-!
Further definitions used by the claim statements: a last-writer
characterization of the status fold, the spec's-words version of the
TLS host derivation (for the refinement comparison of claim C7), badge
SVG samples, and concrete configurations used as test inputs.
-/

/-- Monitor rows the status loop accumulates: one row per successfully
fetched badge, in order, stopping at the first transport exception
(which aborts the loop). -/
def monitor_rows : List BadgeFetch → List (String × String)
  | [] => []
  | .ok n svg :: rest => (n, classify_badge svg) :: monitor_rows rest
  | .fail _ :: rest => monitor_rows rest
  | .exc _ :: _ => []

/-- Events that overwrite the page status inside the loop: a DOWN badge
or a failed badge fetch (an exception is handled separately since it
aborts the loop). -/
def isDecisive : BadgeFetch → Bool
  | .ok _ svg => classify_badge svg == "DOWN"
  | .fail _ => true
  | .exc _ => true

/-- Is there a transport exception among the badge fetches? -/
def hasExc (badges : List BadgeFetch) : Bool :=
  badges.any (fun b => match b with | .exc _ => true | _ => false)

/-- Last-writer-wins verdict of the monitor loop: any transport
exception gives UNKNOWN; otherwise the page is UP unless some decisive
event occurred, in which case the LAST decisive event determines the
status (DOWN badge gives DOWN, failed badge fetch gives UNKNOWN). -/
def page_verdict (badges : List BadgeFetch) : String :=
  if hasExc badges then "UNKNOWN"
  else
    match (badges.filter isDecisive).getLast? with
    | none => "UP"
    | some (BadgeFetch.ok _ _) => "DOWN"
    | some (BadgeFetch.fail _) => "UNKNOWN"
    | some (BadgeFetch.exc _) => "UNKNOWN"

/-- A badge SVG reporting Up, as served by the badge endpoint. -/
def upSvg : String := "<svg><text>Up</text></svg>"

/-- A badge SVG reporting Down. -/
def downSvg : String := "<svg><text>Down</text></svg>"

/-- Does the string end with the given text? -/
def endsWithS (s pat : String) : Bool := startsWithL pat.data.reverse s.data.reverse

/-- Written from the SPEC\x27s words, for comparison with the code\x27s
`values_host`: strip the internal suffix `.k8s.ucar.edu` when the
domain ENDS with it, and otherwise take the first dot-separated label.
(The code instead removes every occurrence of the substring anywhere in
the domain whenever it occurs as a substring.) -/
def spec_host_rule (fqdn : String) : String :=
  if endsWithS fqdn ".k8s.ucar.edu" then
    String.mk (fqdn.data.take (fqdn.data.length - ".k8s.ucar.edu".length))
  else pySplitHead fqdn '.'

/-- Test configuration: app `myapp`, image `nginx:latest`, no ingress. -/
def cfgA : AppConfig :=
  { app_name := "myapp", image := "nginx:latest", replicas := 2, port := 8080,
    enable_ingress := false, ingress_type := "external", domain := "" }

/-- Test configuration with ingress enabled and an internal domain. -/
def cfgB : AppConfig :=
  { app_name := "myapp", image := "nginx:latest", replicas := 2, port := 8080,
    enable_ingress := true, ingress_type := "external", domain := "myapp.k8s.ucar.edu" }

/-- Test configuration with ingress enabled but an EMPTY domain (the
case claim C4 says validation should reject). -/
def cfgI : AppConfig :=
  { app_name := "myapp", image := "nginx", replicas := 2, port := 8080,
    enable_ingress := true, ingress_type := "external", domain := "" }

/-- Small test configuration (short strings keep concrete evaluation
cheap). -/
def cfgS : AppConfig :=
  { app_name := "a", image := "i", replicas := 2, port := 8080,
    enable_ingress := false, ingress_type := "external", domain := "" }

/-- Test configuration whose domain carries the internal suffix. -/
def cfgFoo : AppConfig :=
  { app_name := "foo", image := "i", replicas := 2, port := 8080,
    enable_ingress := true, ingress_type := "external", domain := "foo.k8s.ucar.edu" }

/-- Test configuration with an external domain (no internal suffix). -/
def cfgBar : AppConfig :=
  { app_name := "bar", image := "i", replicas := 2, port := 8080,
    enable_ingress := true, ingress_type := "external", domain := "bar.example.org" }

/-- The ingress-without-domain request of claim C4. -/
def reqIngressNoDomain : List (String × PyValue) :=
  [("app_name", .str "myapp"), ("image", .str "nginx"),
   ("enable_ingress", .bool true), ("domain", .str "")]

/-- A request whose database instance count is unparsable free text. -/
def reqBadInstances : List (String × PyValue) :=
  [("app_name", .str "a"), ("image", .str "i"),
   ("enabled_addons", .list ["cnpg"]), ("cnpg_instances", .str "abc")]

/-!
Proof infrastructure: string-append homomorphisms, the behaviour of the
`str.format` scanner on brace-free chunks and on the two replacement
fields of the README tail, and brace-freeness of the various rendered
values.
-/

theorem sdata_append (a b : String) : (a ++ b).data = a.data ++ b.data := rfl

theorem smk_data (s : String) : String.mk s.data = s := rfl

theorem exmap_map (e : Except PyErr (List Char)) (f g : List Char → List Char) :
    (e.map f).map g = e.map (fun t => g (f t)) := by cases e <;> rfl

theorem exmap_id (e : Except PyErr (List Char)) : e.map (fun t => t) = e := by cases e <;> rfl

theorem braceFreeL_append (a b : List Char) :
    braceFreeL (a ++ b) = (braceFreeL a && braceFreeL b) := by
  induction a with
  | nil => simp [braceFreeL]
  | cons c rest ih => simp [braceFreeL, ih, Bool.and_assoc]

theorem braceFree_append (a b : String) :
    braceFree (a ++ b) = (braceFree a && braceFree b) := by
  simp [braceFree, sdata_append, braceFreeL_append]

/-- A brace-free chunk passes through the `str.format` scanner
unchanged, whatever follows it. -/
theorem fmt_pass (key v : List Char) (lit : List Char) (h : braceFreeL lit = true)
    (rest : List Char) :
    fmtAux key v none (lit ++ rest) = (fmtAux key v none rest).map (fun t => lit ++ t) := by
  induction lit with
  | nil => simp [exmap_id]
  | cons c lit' ih =>
      simp only [braceFreeL, Bool.and_eq_true, Bool.not_eq_true', Bool.or_eq_false_iff,
        decide_eq_false_iff_not] at h
      obtain ⟨⟨hc1, hc2⟩, h'⟩ := h
      cases hx : lit' ++ rest with
      | nil =>
          obtain ⟨h1, h2⟩ := List.append_eq_nil.mp hx
          subst h1; subst h2
          simp [fmtAux, hc1, hc2, Except.map]
      | cons c2 rest2 =>
          have : (c :: lit') ++ rest = c :: c2 :: rest2 := by simp [hx]
          rw [this, fmtAux]
          simp only [if_neg hc1, if_neg hc2]
          rw [← hx, ih (h')]
          simp [exmap_map]

/-- The `\x7bapp_name\x7d` field of the README tail resolves to the keyword
argument's value (which is spliced in without rescanning, as in
Python). -/
theorem fmt_field (v rest : List Char) :
    fmtAux "app_name".data v none (anFld.data ++ rest) =
      (fmtAux "app_name".data v none rest).map (fun t => v ++ t) := rfl

/-- The datetime field of the README tail has argument name `datetime`,
which `format(app_name=...)` cannot resolve: the scanner stops with
`KeyError("datetime")` no matter what follows. -/
theorem fmt_dt (v rest : List Char) :
    fmtAux "app_name".data v none (dtFld.data ++ rest) =
      .error (.keyError "datetime") := rfl

theorem smk_data_list (l : List Char) : (String.mk l).data = l := rfl

theorem digitChar_not_brace (d : Nat) : ¬ digitChar d = obrC ∧ ¬ digitChar d = cbrC := by
  unfold digitChar
  repeat' split
  all_goals exact ⟨by decide, by decide⟩

theorem braceFreeL_natDigitsAux (fuel n : Nat) : braceFreeL (natDigitsAux fuel n) = true := by
  induction fuel generalizing n with
  | zero => simp [natDigitsAux, braceFreeL]
  | succ f ih =>
      unfold natDigitsAux
      split
      · simp only [braceFreeL, Bool.and_true]
        simp [digitChar_not_brace]
      · rw [braceFreeL_append]
        simp only [braceFreeL, Bool.and_true, Bool.and_eq_true]
        refine ⟨ih _, ?_⟩
        simp [digitChar_not_brace]

theorem braceFree_pyIntStr (n : Int) : braceFree (pyIntStr n) = true := by
  have hm : braceFree "-" = true := by decide
  have hn : ∀ m : Nat, braceFree (natStr m) = true := by
    intro m
    simp [braceFree, natStr, smk_data_list, braceFreeL_natDigitsAux]
  unfold pyIntStr
  split
  · rw [braceFree_append]
    simp [hm, hn]
  · exact hn _

theorem rsplitLastAux_eq (sep : Char) (l a b : List Char)
    (h : rsplitLastAux sep l = some (a, b)) : l = a ++ sep :: b := by
  induction l generalizing a b with
  | nil => simp [rsplitLastAux] at h
  | cons c rest ih =>
      unfold rsplitLastAux at h
      cases hx : rsplitLastAux sep rest with
      | some p =>
          rw [hx] at h
          obtain ⟨p1, p2⟩ := p
          simp only [Option.some.injEq, Prod.mk.injEq] at h
          obtain ⟨h1, h2⟩ := h
          subst h1; subst h2
          simpa using ih p1 p2 hx
      | none =>
          rw [hx] at h
          by_cases hc : c = sep
          · simp only [hc, if_true, Option.some.injEq, Prod.mk.injEq] at h
            obtain ⟨h1, h2⟩ := h
            subst h1; subst h2
            simp [hc]
          · simp [hc] at h

theorem braceFree_rsplit_head (s : String) (h : braceFree s = true) :
    braceFree ((pyRsplit1 s ':').headD "") = true := by
  unfold pyRsplit1
  cases hx : rsplitLastAux ':' s.data with
  | none => simpa using h
  | some p =>
      obtain ⟨a, b⟩ := p
      have := rsplitLastAux_eq ':' s.data a b hx
      unfold braceFree at h
      rw [this, braceFreeL_append] at h
      simp only [Bool.and_eq_true] at h
      simp [braceFree, smk_data_list, h.1]

theorem braceFree_rsplit_tag (s : String) (h : braceFree s = true) :
    braceFree ((pyRsplit1 s ':').getD 1 "") = true := by
  unfold pyRsplit1
  cases hx : rsplitLastAux ':' s.data with
  | none => simp; decide
  | some p =>
      obtain ⟨a, b⟩ := p
      have := rsplitLastAux_eq ':' s.data a b hx
      unfold braceFree at h
      rw [this, braceFreeL_append] at h
      simp only [Bool.and_eq_true, braceFreeL] at h
      simp [braceFree, smk_data_list, h.2.2]

theorem braceFree_acGetStr (ac : List (String × PyValue)) (k : String) (d : PyValue)
    (h : ∀ p ∈ ac, braceFree (pyStr p.2) = true) (hd : braceFree (pyStr d) = true) :
    braceFree (acGetStr ac k d) = true := by
  unfold acGetStr acGet
  cases hx : ac.find? (fun p => p.1 == k) with
  | none => simpa using hd
  | some p => exact h p (List.mem_of_find?_eq_some hx)

theorem braceFree_pyJoin (sep : String) (hsep : braceFree sep = true) :
    ∀ items : List String, (∀ s ∈ items, braceFree s = true) →
      braceFree (pyJoin sep items) = true := by
  intro items
  induction items with
  | nil => intro _; simp [pyJoin]; decide
  | cons s rest ih =>
      intro h
      cases rest with
      | nil => simpa [pyJoin] using h s (by simp)
      | cons s2 r2 =>
          simp only [pyJoin]
          rw [braceFree_append, braceFree_append]
          simp [h s (by simp), hsep, ih (fun x hx => h x (by simp [hx]))]

/-!
Brace-freeness of every literal piece of the README text before the
tail, and the scanner steps for the tail pieces.
-/

theorem bf_rp01 : braceFree rp01 = true := by decide

theorem bf_rp02 : braceFree rp02 = true := by decide

theorem bf_rp03 : braceFree rp03 = true := by decide

theorem bf_rp04 : braceFree rp04 = true := by decide

theorem bf_rp05 : braceFree rp05 = true := by decide

theorem bf_rp06 : braceFree rp06 = true := by decide

theorem bf_rp07 : braceFree rp07 = true := by decide

theorem bf_rp08 : braceFree rp08 = true := by decide

theorem bf_rp09 : braceFree rp09 = true := by decide

theorem bf_rp10 : braceFree rp10 = true := by decide

theorem bf_rp11 : braceFree rp11 = true := by decide

theorem bf_rp12 : braceFree rp12 = true := by decide

theorem bf_rp13 : braceFree rp13 = true := by decide

theorem bf_rp14 : braceFree rp14 = true := by decide

theorem bf_rp15 : braceFree rp15 = true := by decide

theorem bf_rp16 : braceFree rp16 = true := by decide

theorem bf_rp17 : braceFree rp17 = true := by decide

theorem bf_rp18 : braceFree rp18 = true := by decide

theorem bf_rp19 : braceFree rp19 = true := by decide

theorem bf_rp20 : braceFree rp20 = true := by decide

theorem bf_rp21 : braceFree rp21 = true := by decide

theorem bf_rp22 : braceFree rp22 = true := by decide

theorem bf_rp23 : braceFree rp23 = true := by decide

theorem bf_rp24 : braceFree rp24 = true := by decide

theorem bf_rp25 : braceFree rp25 = true := by decide

theorem bf_rp26 : braceFree rp26 = true := by decide

theorem bf_rp27 : braceFree rp27 = true := by decide

theorem bf_rp28 : braceFree rp28 = true := by decide

theorem bf_rp29 : braceFree rp29 = true := by decide

theorem bf_rp30 : braceFree rp30 = true := by decide

theorem bf_rp31 : braceFree rp31 = true := by decide

theorem bf_rp32 : braceFree rp32 = true := by decide

theorem bf_rp33 : braceFree rp33 = true := by decide

theorem bf_rp34 : braceFree rp34 = true := by decide

theorem bf_rp35 : braceFree rp35 = true := by decide

theorem bf_rp36 : braceFree rp36 = true := by decide

theorem bf_rmSwitching : braceFree rmSwitching = true := by decide

theorem bf_rmDb : braceFree rmDb = true := by decide

theorem bf_rmNfsRo : braceFree rmNfsRo = true := by decide

theorem fmt_rmT1 (v rest : List Char) :
    fmtAux "app_name".data v none (rmT1.data ++ rest) =
      (fmtAux "app_name".data v none rest).map (fun t => rmT1.data ++ t) :=
  fmt_pass _ _ _ (by decide) _

theorem fmt_rmT2 (v rest : List Char) :
    fmtAux "app_name".data v none (rmT2.data ++ rest) =
      (fmtAux "app_name".data v none rest).map (fun t => rmT2.data ++ t) :=
  fmt_pass _ _ _ (by decide) _

theorem fmt_rmT3 (v rest : List Char) :
    fmtAux "app_name".data v none (rmT3.data ++ rest) =
      (fmtAux "app_name".data v none rest).map (fun t => rmT3.data ++ t) :=
  fmt_pass _ _ _ (by decide) _

theorem fmt_rmT4 (v rest : List Char) :
    fmtAux "app_name".data v none (rmT4.data ++ rest) =
      (fmtAux "app_name".data v none rest).map (fun t => rmT4.data ++ t) :=
  fmt_pass _ _ _ (by decide) _

theorem fmt_rmT5 (v rest : List Char) :
    fmtAux "app_name".data v none (rmT5.data ++ rest) =
      (fmtAux "app_name".data v none rest).map (fun t => rmT5.data ++ t) :=
  fmt_pass _ _ _ (by decide) _

theorem fmt_rmT6 (v rest : List Char) :
    fmtAux "app_name".data v none (rmT6.data ++ rest) =
      (fmtAux "app_name".data v none rest).map (fun t => rmT6.data ++ t) :=
  fmt_pass _ _ _ (by decide) _

theorem fmt_rmT7 (v rest : List Char) :
    fmtAux "app_name".data v none (rmT7.data ++ rest) =
      (fmtAux "app_name".data v none rest).map (fun t => rmT7.data ++ t) :=
  fmt_pass _ _ _ (by decide) _

theorem fmt_rmT8 (v rest : List Char) :
    fmtAux "app_name".data v none (rmT8.data ++ rest) =
      (fmtAux "app_name".data v none rest).map (fun t => rmT8.data ++ t) :=
  fmt_pass _ _ _ (by decide) _

theorem braceFree_readme_components (en : List String) (ac : List (String × PyValue))
    (h5 : ∀ p ∈ ac, braceFree (pyStr p.2) = true) :
    ∀ s ∈ readme_components en ac, braceFree s = true := by
  have hint : ∀ n : Int, braceFree (pyStr (.int n)) = true := by
    intro n; simp [pyStr, braceFree_pyIntStr]
  intro s hs
  unfold readme_components at hs
  simp only [List.mem_append] at hs
  rcases hs with ((((hs | hs) | hs) | hs) | hs) <;> split at hs <;>
    simp only [List.mem_singleton, List.not_mem_nil] at hs <;> try exact absurd hs (by simp)
  all_goals subst hs
  · simp [braceFree_append, bf_rp05, bf_rp06, braceFree_acGetStr _ _ _ h5 (hint 3)]
  · simp [braceFree_append, bf_rp07, bf_rp08, braceFree_acGetStr _ _ _ h5 (hint 3)]
  · simp [braceFree_append, bf_rp09, bf_rp10, bf_rp13, apply_ite braceFree, bf_rp11, bf_rp12,
      braceFree_acGetStr _ _ _ h5 (show braceFree (pyStr (.str "10Gi")) = true by decide)]
  · simp [braceFree_append, bf_rp14, bf_rp02, bf_rp03, apply_ite braceFree, bf_rp15, bf_rp16,
      braceFree_acGetStr _ _ _ h5 (show braceFree (pyStr (.str "nfs.example.com")) = true by decide)]
  · exact bf_rp17

theorem bf_empty : braceFree "" = true := by decide

theorem braceFree_readme_pre (cfg : AppConfig) (en : List String) (ac : List (String × PyValue))
    (h1 : braceFree cfg.app_name = true) (h2 : braceFree cfg.image = true)
    (h3 : braceFree cfg.domain = true) (h4 : braceFree cfg.ingress_type = true)
    (h5 : ∀ p ∈ ac, braceFree (pyStr p.2) = true) :
    braceFree (readme_pre cfg en ac) = true := by
  have hjoin : braceFree (pyJoin "\n" (readme_components en ac)) = true :=
    braceFree_pyJoin "\n" (by decide) _ (braceFree_readme_components en ac h5)
  have hrepo := braceFree_rsplit_head cfg.image h2
  have htag := braceFree_rsplit_tag cfg.image h2
  unfold readme_pre
  simp only [braceFree_append, apply_ite braceFree, hjoin, h1, h3, h4, hrepo, htag,
    braceFree_pyIntStr, bf_empty, bf_rp01, bf_rp02, bf_rp03, bf_rp04, bf_rp18, bf_rp19,
    bf_rp20, bf_rp21, bf_rp22, bf_rp23, bf_rp24, bf_rp25, bf_rp26, bf_rp27, bf_rp28,
    bf_rp29, bf_rp30, bf_rp31, bf_rp32, bf_rp33, bf_rp34, bf_rp35, bf_rp36,
    bf_rmSwitching, bf_rmDb, bf_rmNfsRo,
    Bool.and_true, Bool.true_and, Bool.and_self, ite_self]

/-- Master fact about the README generator: for any configuration whose
free-form string inputs contain no literal brace characters, the
`format(app_name=...)` call of line 944 reaches the literal
`\x7bdatetime.now().strftime(...)\x7d` field of line 941 and raises
`KeyError("datetime")`.  The README is therefore never produced. -/
theorem readme_format_keyerror (cfg : AppConfig) (en : List String) (ac : List (String × PyValue))
    (h1 : braceFree cfg.app_name = true) (h2 : braceFree cfg.image = true)
    (h3 : braceFree cfg.domain = true) (h4 : braceFree cfg.ingress_type = true)
    (h5 : ∀ p ∈ ac, braceFree (pyStr p.2) = true) :
    generate_modular_readme cfg en ac = .error (.keyError "datetime") := by
  have hpre : braceFreeL (readme_pre cfg en ac).data = true :=
    braceFree_readme_pre cfg en ac h1 h2 h3 h4 h5
  unfold generate_modular_readme pyFormat1
  rw [sdata_append, fmt_pass _ _ _ hpre]
  simp only [readme_tail, sdata_append, List.append_assoc]
  rw [fmt_rmT1, fmt_field, fmt_rmT2, fmt_field, fmt_rmT3, fmt_field, fmt_rmT4, fmt_field,
    fmt_rmT5, fmt_field, fmt_rmT6, fmt_field, fmt_rmT7, fmt_field, fmt_rmT8, fmt_dt]
  simp [Except.map]

/-- Chart-level corollary of the README `KeyError`: the whole chart
generation aborts before returning any file set. -/
theorem chart_keyerror (cfg : AppConfig) (en : List String) (ac : List (String × PyValue))
    (h1 : braceFree cfg.app_name = true) (h2 : braceFree cfg.image = true)
    (h3 : braceFree cfg.domain = true) (h4 : braceFree cfg.ingress_type = true)
    (h5 : ∀ p ∈ ac, braceFree (pyStr p.2) = true) :
    generate_modular_chart cfg en ac = .error (.keyError "datetime") := by
  unfold generate_modular_chart
  rw [readme_format_keyerror cfg en ac h1 h2 h3 h4 h5]

theorem startsWithL_refl (l : List Char) : startsWithL l l = true := by
  induction l with
  | nil => rfl
  | cons c rest ih => simp [startsWithL, ih]

theorem containsL_append_right (pat b : List Char) (hb : startsWithL pat b = true) :
    ∀ a : List Char, containsL pat (a ++ b) = true := by
  intro a
  induction a with
  | nil =>
      cases b with
      | nil => cases pat with
        | nil => rfl
        | cons c r => simp [startsWithL] at hb
      | cons c r => simp [containsL, hb]
  | cons c a' ih => simp [containsL, ih]

/-- Membership in a filtered list is membership, for elements the
filter keeps. -/
theorem contains_filter (p : String → Bool) (a : String) (hp : p a = true) :
    ∀ l : List String, (l.filter p).contains a = l.contains a := by
  intro l
  induction l with
  | nil => simp
  | cons x t ih =>
      by_cases hax : x = a
      · subst hax
        simp [List.filter_cons, hp, ih]
      · have hne : (a == x) = false := by simp [hax, Ne.symm hax]
        by_cases hpx : p x = true
        · simp [List.filter_cons, hpx, List.contains_cons, hne, ih, hp]
        · simp only [Bool.not_eq_true] at hpx
          simp [List.filter_cons, hpx, List.contains_cons, hne, ih, hp, hax, Ne.symm hax]

theorem cf_cnpg (l : List String) : (l.filter isKnownAddon).contains "cnpg" = l.contains "cnpg" :=
  contains_filter isKnownAddon "cnpg" (by decide) l

theorem cf_dask (l : List String) : (l.filter isKnownAddon).contains "dask" = l.contains "dask" :=
  contains_filter isKnownAddon "dask" (by decide) l

theorem cf_persistence (l : List String) :
    (l.filter isKnownAddon).contains "persistence" = l.contains "persistence" :=
  contains_filter isKnownAddon "persistence" (by decide) l

theorem cf_nfs (l : List String) : (l.filter isKnownAddon).contains "nfs" = l.contains "nfs" :=
  contains_filter isKnownAddon "nfs" (by decide) l

theorem cf_external (l : List String) :
    (l.filter isKnownAddon).contains "external_secrets" = l.contains "external_secrets" :=
  contains_filter isKnownAddon "external_secrets" (by decide) l

theorem values_filter (cfg : AppConfig) (ac : List (String × PyValue)) (l : List String) :
    generate_modular_values cfg (l.filter isKnownAddon) ac = generate_modular_values cfg l ac := by
  unfold generate_modular_values
  rw [cf_cnpg, cf_dask, cf_persistence, cf_nfs, cf_external]

theorem deployment_filter (cfg : AppConfig) (ac : List (String × PyValue)) (l : List String) :
    generate_base_deployment cfg (l.filter isKnownAddon) ac = generate_base_deployment cfg l ac := by
  unfold generate_base_deployment
  rw [cf_persistence, cf_nfs, cf_external]

theorem components_filter (ac : List (String × PyValue)) (l : List String) :
    readme_components (l.filter isKnownAddon) ac = readme_components l ac := by
  unfold readme_components
  rw [cf_cnpg, cf_dask, cf_persistence, cf_nfs, cf_external]

theorem readme_pre_filter (cfg : AppConfig) (ac : List (String × PyValue)) (l : List String) :
    readme_pre cfg (l.filter isKnownAddon) ac = readme_pre cfg l ac := by
  unfold readme_pre
  rw [components_filter, cf_cnpg, cf_nfs]

theorem readme_filter (cfg : AppConfig) (ac : List (String × PyValue)) (l : List String) :
    generate_modular_readme cfg (l.filter isKnownAddon) ac = generate_modular_readme cfg l ac := by
  unfold generate_modular_readme
  rw [readme_pre_filter]

theorem chartFiles_filter (cfg : AppConfig) (ac : List (String × PyValue)) (l : List String) :
    chartFilesBeforeReadme cfg (l.filter isKnownAddon) ac = chartFilesBeforeReadme cfg l ac := by
  unfold chartFilesBeforeReadme
  rw [values_filter, deployment_filter, cf_cnpg, cf_dask, cf_persistence, cf_nfs, cf_external]

theorem chart_filter (cfg : AppConfig) (ac : List (String × PyValue)) (l : List String) :
    generate_modular_chart cfg (l.filter isKnownAddon) ac = generate_modular_chart cfg l ac := by
  unfold generate_modular_chart
  rw [readme_filter, chartFiles_filter]

theorem replaceAllAux_skip_ge (pat rep : List Char) :
    ∀ (l : List Char) (skip : Nat), l.length ≤ skip → replaceAllAux pat rep l skip = [] := by
  intro l
  induction l with
  | nil => intro skip _; rfl
  | cons c rest ih =>
      intro skip h
      cases skip with
      | zero => simp at h
      | succ s => exact ih s (by simpa using h)

/-- Removing `.k8s.ucar.edu` from `x ++ ".k8s.ucar.edu"` gives back `x`
whenever `x` contains no dot (so no earlier match can start inside
`x`). -/
theorem replaceAll_strip (x : List Char) (hx : ∀ c ∈ x, ¬ c = '.') :
    replaceAllAux ".k8s.ucar.edu".data [] (x ++ ".k8s.ucar.edu".data) 0 = x := by
  induction x with
  | nil => decide
  | cons c x' ih =>
      have hc : ¬ c = '.' := hx c (by simp)
      have hsw : startsWithL ".k8s.ucar.edu".data (c :: (x' ++ ".k8s.ucar.edu".data)) = false := by
        rw [show ".k8s.ucar.edu".data = '.' :: "k8s.ucar.edu".data from rfl]
        have hne : ('.' = c) = False := eq_false (fun h => hc h.symm)
        simp [startsWithL, hne]
      show replaceAllAux _ [] (c :: (x' ++ _)) 0 = c :: x'
      rw [replaceAllAux, if_neg (by simp [hsw])]
      rw [ih (fun d hd => hx d (by simp [hd]))]

/-- On a dot-free label with the internal suffix appended, the code\x27s
host derivation strips exactly that suffix. -/
theorem values_host_strip (x : String) (hx : ∀ c ∈ x.data, ¬ c = '.') :
    values_host (x ++ ".k8s.ucar.edu") = x := by
  have hcont : strContains (x ++ ".k8s.ucar.edu") ".k8s.ucar.edu" = true := by
    unfold strContains
    rw [sdata_append]
    exact containsL_append_right _ _ (startsWithL_refl _) _
  unfold values_host
  rw [if_pos hcont]
  unfold pyReplace
  rw [sdata_append, replaceAll_strip x.data hx]

/-- The monitor loop, characterized: starting from any state, the final
monitor list appends the rows of the processed badges; the final status
is UNKNOWN whenever a transport exception occurs, and otherwise is
decided by the LAST decisive event (a DOWN badge gives DOWN, a failed
badge fetch gives UNKNOWN, and with no decisive event the starting
status survives): last writer wins. -/
theorem page_status_fold_char (badges : List BadgeFetch) :
    ∀ (st : String) (ms : List (String × String)),
      page_status_fold badges (st, ms) =
        ((if hasExc badges then "UNKNOWN"
          else
            match (badges.filter isDecisive).getLast? with
            | none => st
            | some (BadgeFetch.ok _ _) => "DOWN"
            | some (BadgeFetch.fail _) => "UNKNOWN"
            | some (BadgeFetch.exc _) => "UNKNOWN"),
         ms ++ monitor_rows badges) := by
  induction badges with
  | nil => intro st ms; simp [page_status_fold, monitor_rows, hasExc]
  | cons b rest ih =>
      intro st ms
      cases b with
      | exc n => simp [page_status_fold, monitor_rows, hasExc]
      | fail n =>
          rw [page_status_fold, ih]
          have hf : (BadgeFetch.fail n :: rest).filter isDecisive =
              BadgeFetch.fail n :: rest.filter isDecisive := by
            simp [List.filter_cons, isDecisive]
          have hhe : hasExc (BadgeFetch.fail n :: rest) = hasExc rest := by simp [hasExc]
          rw [hf, hhe, show monitor_rows (BadgeFetch.fail n :: rest) = monitor_rows rest from rfl]
          by_cases hexc : hasExc rest = true
          · simp [hexc]
          · simp only [Bool.not_eq_true] at hexc
            cases hfe : rest.filter isDecisive with
            | nil => simp [hexc, hfe, List.getLast?]
            | cons y ys =>
                simp only [hexc, hfe, List.getLast?_cons_cons, Bool.false_eq_true, if_false]
                cases hyl : (y :: ys).getLast? with
                | none =>
                    rw [List.getLast?_eq_getLast_of_ne_nil (by simp)] at hyl
                    simp at hyl
                | some d => cases d <;> rfl
      | ok n svg =>
          rw [page_status_fold, ih]
          have hhe : hasExc (BadgeFetch.ok n svg :: rest) = hasExc rest := by simp [hasExc]
          have hrows : monitor_rows (BadgeFetch.ok n svg :: rest) =
              (n, classify_badge svg) :: monitor_rows rest := rfl
          rw [hhe, hrows]
          by_cases hdown : classify_badge svg = "DOWN"
          · have hf : (BadgeFetch.ok n svg :: rest).filter isDecisive =
                BadgeFetch.ok n svg :: rest.filter isDecisive := by
              simp [List.filter_cons, isDecisive, hdown]
            rw [hf]
            by_cases hexc : hasExc rest = true
            · simp [hexc, hdown]
            · simp only [Bool.not_eq_true] at hexc
              cases hfe : rest.filter isDecisive with
              | nil => simp [hexc, hfe, List.getLast?, hdown]
              | cons y ys =>
                  simp only [hexc, hfe, List.getLast?_cons_cons, Bool.false_eq_true, if_false, hdown]
                  cases hyl : (y :: ys).getLast? with
                  | none =>
                      rw [List.getLast?_eq_getLast_of_ne_nil (by simp)] at hyl
                      simp at hyl
                  | some d => cases d <;> simp
          · have hf : (BadgeFetch.ok n svg :: rest).filter isDecisive =
                rest.filter isDecisive := by
              simp [List.filter_cons, isDecisive, hdown]
            rw [hf]
            simp [hdown]

theorem scontains_append (a b : List String) (k : String) :
    (a ++ b).contains k = (a.contains k || b.contains k) := by
  induction a with
  | nil => simp
  | cons x t ih => simp [List.contains_cons, ih, Bool.or_assoc]

/-!
Claim theorems.
-/

/-- C1: the claim says every templated placeholder in every produced
manifest is a DOUBLE-brace expression, in particular the base
deployment's replica count, selector labels, container name, image and
port.  The code contradicts it: lines 328-351 build the deployment with
an f-string, which halves the doubled braces of the source, so exactly
those five references are emitted as SINGLE-brace text (only the
quadruple-braced `metadata` lines survive as double braces, as does the
plain-string resources block).  This theorem evaluates the emitted
deployment at a concrete configuration and exhibits the single-brace
text. -/
theorem C1_base_deployment_emits_single_braces :
    strContains (generate_base_deployment cfgA [] []) "replicas: \x7b .Values.replicaCount \x7d" = true ∧
    strContains (generate_base_deployment cfgA [] []) "replicas: \x7b\x7b" = false ∧
    strContains (generate_base_deployment cfgA [] []) "- name: \x7b .Values.webapp.name \x7d" = true ∧
    strContains (generate_base_deployment cfgA [] []) "image: \"\x7b .Values.webapp.container.image \x7d\"" = true ∧
    strContains (generate_base_deployment cfgA [] []) "containerPort: \x7b .Values.webapp.container.port \x7d" = true ∧
    strContains (generate_base_deployment cfgA [] []) "\x7b- include \"chart.selectorLabels\"" = true ∧
    strContains (generate_base_deployment cfgA [] []) "\x7b\x7b- include \"chart.selectorLabels\"" = false ∧
    strContains (generate_base_deployment cfgA [] []) "name: \x7b\x7b include \"chart.fullname\" . \x7d\x7d" = true := by
  refine ⟨by decide, by decide, by decide, by decide, by decide, by decide, by decide, by decide⟩

/-- C3: the claim says that with no add-ons and no ingress the
assembled ChartFileSet has exactly the six base keys and the deployment
has no volumeMounts / volumes / envFrom blocks.  The deployment half
holds, and the five pre-README keys are exactly the base ones, but the
code never returns the file set: inserting `README.md` raises
`KeyError("datetime")` (the `str.format` bug of line 944), so chart
generation aborts with no files at all. -/
theorem C3_no_addons_base_files_and_crash :
    ((chartFilesBeforeReadme cfgA [] []).map Prod.fst =
      ["Chart.yaml", "values.yaml", "templates/_helpers.tpl",
       "templates/deployment.yaml", "templates/service.yaml"]) ∧
    generate_modular_chart cfgA [] [] = .error (.keyError "datetime") ∧
    strContains (generate_base_deployment cfgA [] []) "volumeMounts" = false ∧
    strContains (generate_base_deployment cfgA [] []) "volumes:" = false ∧
    strContains (generate_base_deployment cfgA [] []) "envFrom" = false := by
  refine ⟨by decide, ?_, by decide, by decide, by decide⟩
  exact chart_keyerror cfgA [] [] (by decide) (by decide) (by decide) (by decide) (by simp)

/-- C10: the boolean coercion of line 79 (`coerce_bool_field`): a
string is coerced to true exactly when it is the lowercase text `true`
(in particular `True`, `1`, `yes` all coerce to false), and every
non-string value is coerced by its ordinary Python truthiness; the
extraction loop applies this coercion to each of the three boolean
fields. -/
theorem C10_boolean_coercion_semantics :
    (∀ s : String, coerce_bool_field (.str s) = (s == "true")) ∧
    coerce_bool_field (.str "true") = true ∧
    coerce_bool_field (.str "True") = false ∧
    coerce_bool_field (.str "1") = false ∧
    coerce_bool_field (.str "yes") = false ∧
    (∀ n : Int, coerce_bool_field (.int n) = pyTruthy (.int n)) ∧
    (∀ b : Bool, coerce_bool_field (.bool b) = pyTruthy (.bool b)) ∧
    coerce_bool_field .pynull = pyTruthy .pynull ∧
    (∀ l : List String, coerce_bool_field (.list l) = pyTruthy (.list l)) ∧
    (∀ v : PyValue, extract_addon_config [("cnpg_backup_enabled", v)] =
      .ok [("cnpg_backup_enabled", .bool (coerce_bool_field v))]) ∧
    (∀ v : PyValue, extract_addon_config [("nfs_readonly", v)] =
      .ok [("nfs_readonly", .bool (coerce_bool_field v))]) ∧
    (∀ v : PyValue, extract_addon_config [("cnpg_enable_superuser", v)] =
      .ok [("cnpg_enable_superuser", .bool (coerce_bool_field v))]) := by
  refine ⟨fun s => rfl, by decide, by decide, by decide, by decide, fun n => rfl, fun b => rfl,
    rfl, fun l => rfl, fun v => ?_, fun v => ?_, fun v => ?_⟩ <;>
    simp [extract_addon_config, appConfigKeys, intFields, boolFields, Except.map]

/-- C9 counterexample: the claim says the page status is DOWN whenever
any monitor in the page's list is DOWN, independent of the order of
results.  Concretely: monitor `a` is DOWN (and is in the monitor list),
but a later badge fetch fails with a non-200 response, and the loop's
last-writer-wins update leaves the page UNKNOWN, not DOWN. -/
theorem C9_counterexample_down_then_failed_fetch :
    page_status (.ok [.ok "a" downSvg, .fail "b"]) = ("UNKNOWN", [("a", "DOWN")]) := by
  decide

/-- C9 (amended): page-level failures (transport exception, non-200,
missing preload data) give UNKNOWN; otherwise the loop is last-writer-
wins: any transport exception during a badge fetch gives UNKNOWN, else
the page is UP when no DOWN badge and no failed badge fetch occurred,
and otherwise the LAST such event decides (DOWN badge gives DOWN,
failed fetch gives UNKNOWN) — so the result is order-dependent.  The
claim's own examples hold: [(a,UP),(b,DOWN)] gives DOWN and [(a,UP)]
gives UP. -/
theorem C9_page_status_last_writer_wins :
    page_status .httpFail = ("UNKNOWN", []) ∧
    page_status .non200 = ("UNKNOWN", []) ∧
    page_status .noPreload = ("UNKNOWN", []) ∧
    (∀ badges : List BadgeFetch,
      page_status (.ok badges) =
        ((if hasExc badges then "UNKNOWN"
          else
            match (badges.filter isDecisive).getLast? with
            | none => "UP"
            | some (BadgeFetch.ok _ _) => "DOWN"
            | some (BadgeFetch.fail _) => "UNKNOWN"
            | some (BadgeFetch.exc _) => "UNKNOWN"),
         monitor_rows badges)) ∧
    page_status (.ok [.ok "a" upSvg, .ok "b" downSvg]) = ("DOWN", [("a", "UP"), ("b", "DOWN")]) ∧
    page_status (.ok [.ok "a" upSvg]) = ("UP", [("a", "UP")]) := by
  refine ⟨rfl, rfl, rfl, fun badges => ?_, by decide, by decide⟩
  show page_status_fold badges ("UP", []) = _
  rw [page_status_fold_char badges "UP" []]
  simp

/-- C2 counterexample: the claim speaks of the files of "the two
produced ChartFileSets" for identical runs; but no run produces a
ChartFileSet at all — generation aborts in README formatting, so there
are no produced files (README.md included) to compare. -/
theorem C2_counterexample_no_fileset_is_ever_produced :
    (generate_modular_chart cfgB ["cnpg"] [("cnpg_instances", PyValue.int 3)]).isOk = false := by
  rw [chart_keyerror cfgB ["cnpg"] [("cnpg_instances", PyValue.int 3)]
    (by decide) (by decide) (by decide) (by decide) ?_]
  · rfl
  · intro p hp
    simp only [List.mem_singleton] at hp
    subst hp
    decide

/-- C2 (amended): generation is a pure function of (AppConfig,
AddonSelection, field values) — the live code path never consults a
clock (the date placeholder of line 941 sits in a plain string and is
never evaluated) — but it never delivers a ChartFileSet: for every
configuration whose free-form string inputs are brace-free, every run
fails identically with `KeyError("datetime")` while `README.md` is
being formatted, before any file is returned. -/
theorem C2_every_run_fails_identically (cfg : AppConfig) (en : List String)
    (ac : List (String × PyValue))
    (h1 : braceFree cfg.app_name = true) (h2 : braceFree cfg.image = true)
    (h3 : braceFree cfg.domain = true) (h4 : braceFree cfg.ingress_type = true)
    (h5 : ∀ p ∈ ac, braceFree (pyStr p.2) = true) :
    generate_modular_chart cfg en ac = .error (.keyError "datetime") :=
  chart_keyerror cfg en ac h1 h2 h3 h4 h5

/-- C2 witness: the amended theorem applied at a concrete input. -/
theorem C2_witness :
    generate_modular_chart cfgS ["dask"] [("worker_memory", PyValue.str "4Gi")] =
      .error (.keyError "datetime") :=
  C2_every_run_fails_identically cfgS ["dask"] [("worker_memory", PyValue.str "4Gi")]
    (by decide) (by decide) (by decide) (by decide)
    (by intro p hp; simp only [List.mem_singleton] at hp; subst hp; decide)

/-- C4 counterexample: the claim says generation fails with a
ValidationError when ingress is enabled and the domain is empty.  The
code's only validation (lines 84-85) checks the app name and the image;
with both present it proceeds into chart generation even though ingress
is enabled with an empty domain — and then dies with the README
`KeyError`, an uncaught exception, not a ValidationError. -/
theorem C4_counterexample_ingress_without_domain_not_validated :
    generate_helm reqIngressNoDomain = .pyError (.keyError "datetime") := by
  have hext : extract_app_config reqIngressNoDomain = .ok cfgI := by decide
  have hadd : extract_addon_config reqIngressNoDomain = .ok [] := by decide
  unfold generate_helm
  rw [hext, hadd]
  dsimp only
  rw [if_neg (by decide)]
  rw [show extract_enabled_addons reqIngressNoDomain = [] from by decide]
  rw [chart_keyerror cfgI [] [] (by decide) (by decide) (by decide) (by decide) (by simp)]

/-- C4 (amended): once the request fields have been extracted without a
coercion exception, `generate_helm` returns a ValidationError exactly
when the app name or the image is empty — enabling ingress without a
domain is NOT validated and generation proceeds. -/
theorem C4_validation_exactly_name_or_image (data : List (String × PyValue))
    (cfg : AppConfig) (ac : List (String × PyValue))
    (hc : extract_app_config data = .ok cfg) (ha : extract_addon_config data = .ok ac) :
    (∃ m, generate_helm data = .validationError m) ↔ (cfg.app_name = "" ∨ cfg.image = "") := by
  unfold generate_helm
  rw [hc, ha]
  dsimp only
  by_cases h : (cfg.app_name = "" || cfg.image = "") = true
  · rw [if_pos h]
    simp only [Bool.or_eq_true, decide_eq_true_eq] at h
    exact ⟨fun _ => h, fun _ => ⟨"App name and image are required", rfl⟩⟩
  · rw [if_neg h]
    simp only [Bool.or_eq_true, decide_eq_true_eq] at h
    constructor
    · intro hex
      obtain ⟨m, hm⟩ := hex
      cases hx : generate_modular_chart cfg (extract_enabled_addons data) ac with
      | error e => rw [hx] at hm; simp at hm
      | ok files => rw [hx] at hm; simp at hm
    · intro hor; exact absurd hor h

/-- C4 witness: a request with an image but no app name is rejected by
the validation (the amended iff applied left-to-right at a concrete
request). -/
theorem C4_witness :
    ∃ m, generate_helm [("image", PyValue.str "i")] = HelmResult.validationError m :=
  (C4_validation_exactly_name_or_image [("image", PyValue.str "i")]
    { app_name := "", image := "i", replicas := 2, port := 8080,
      enable_ingress := false, ingress_type := "external", domain := "" }
    [] (by decide) (by decide)).mpr (Or.inl rfl)

/-- C5 counterexample: an AddonSelection carrying the unknown
identifier `bogus-addon` is not rejected — there is no
UnknownAddonError anywhere in the code — and generation treats it
exactly like the empty selection: same assembled files, same values
document, same overall outcome. -/
theorem C5_counterexample_unknown_id_ignored :
    chartFilesBeforeReadme cfgA ["bogus-addon"] [] = chartFilesBeforeReadme cfgA [] [] ∧
    generate_modular_values cfgA ["bogus-addon"] [] = generate_modular_values cfgA [] [] ∧
    generate_modular_chart cfgA ["bogus-addon"] [] = generate_modular_chart cfgA [] [] := by
  have h1 := chartFiles_filter cfgA [] ["bogus-addon"]
  have h2 := values_filter cfgA [] ["bogus-addon"]
  have h3 := chart_filter cfgA [] ["bogus-addon"]
  rw [show (["bogus-addon"].filter isKnownAddon) = [] from by decide] at h1 h2 h3
  exact ⟨h1.symm, h2.symm, h3.symm⟩

/-- C5 (amended): add-on identifiers outside the registry key space are
silently ignored, not rejected: every generation function produces
exactly what it produces for the selection restricted to known
identifiers.  (No UnknownAddonError exists in the code.) -/
theorem C5_unknown_addon_ids_silently_ignored (cfg : AppConfig)
    (ac : List (String × PyValue)) (l : List String) :
    generate_modular_chart cfg l ac = generate_modular_chart cfg (l.filter isKnownAddon) ac ∧
    chartFilesBeforeReadme cfg l ac = chartFilesBeforeReadme cfg (l.filter isKnownAddon) ac ∧
    generate_modular_values cfg l ac = generate_modular_values cfg (l.filter isKnownAddon) ac ∧
    generate_base_deployment cfg l ac = generate_base_deployment cfg (l.filter isKnownAddon) ac :=
  ⟨(chart_filter cfg ac l).symm, (chartFiles_filter cfg ac l).symm,
   (values_filter cfg ac l).symm, (deployment_filter cfg ac l).symm⟩

/-- C6 counterexample: with the database add-on enabled and the
superuser option disabled, the produced file set still contains the
superuser credential fragment `templates/cnpg-superuser-secret.yaml`
(lines 140-143 emit it unconditionally), contradicting "zero superuser
fragments". -/
theorem C6_counterexample_superuser_fragment_always_present :
    ("templates/cnpg-superuser-secret.yaml"
      ∈ (chartFilesBeforeReadme cfgA ["cnpg"] [("cnpg_enable_superuser", PyValue.bool false)]).map Prod.fst) ∧
    acGet [("cnpg_enable_superuser", PyValue.bool false)] "cnpg_enable_superuser" (.bool false) =
      .bool false := by
  constructor
  · show "templates/cnpg-superuser-secret.yaml" ∈ _
    have : (chartFilesBeforeReadme cfgA ["cnpg"] [("cnpg_enable_superuser", PyValue.bool false)]).map
        Prod.fst = ["Chart.yaml", "values.yaml", "templates/_helpers.tpl",
          "templates/deployment.yaml", "templates/service.yaml", "templates/cnpg-cluster.yaml",
          "templates/cnpg-app-user-secret.yaml", "templates/cnpg-superuser-secret.yaml"] := by
      decide
    rw [this]
    decide
  · decide

/-- C6 (amended): whenever the database add-on is enabled, BOTH
credential fragment files are emitted into the file set (the app-user
one and the superuser one); the superuser fragment's manifest text is
wrapped in the template conditional
`if and .Values.cnpg.enabled .Values.cnpg.superUser.enabled`, so it
renders to a manifest only when the superuser option is on, and with
the option off the values document records `enabled: false` for the
superuser section. -/
theorem C6_cnpg_emits_both_secret_fragments (cfg : AppConfig) (ac : List (String × PyValue))
    (en : List String) (h : en.contains "cnpg" = true) :
    ("templates/cnpg-app-user-secret.yaml", generate_cnpg_app_user_secret)
        ∈ chartFilesBeforeReadme cfg en ac ∧
    ("templates/cnpg-superuser-secret.yaml", generate_cnpg_superuser_secret)
        ∈ chartFilesBeforeReadme cfg en ac ∧
    strContains generate_cnpg_superuser_secret
      "\x7b\x7b- if and .Values.cnpg.enabled .Values.cnpg.superUser.enabled \x7d\x7d" = true ∧
    (acGet ac "cnpg_enable_superuser" (.bool false) = .bool false →
      acGetLower ac "cnpg_enable_superuser" (.bool false) = "false") := by
  refine ⟨?_, ?_, by decide, fun h' => ?_⟩
  · unfold chartFilesBeforeReadme
    refine List.mem_append_left _ (List.mem_append_left _ (List.mem_append_left _
      (List.mem_append_left _ (List.mem_append_right _ ?_))))
    rw [if_pos h]
    exact List.Mem.tail _ (List.Mem.head _)
  · unfold chartFilesBeforeReadme
    refine List.mem_append_left _ (List.mem_append_left _ (List.mem_append_left _
      (List.mem_append_left _ (List.mem_append_right _ ?_))))
    rw [if_pos h]
    exact List.Mem.tail _ (List.Mem.tail _ (List.Mem.head _))
  · unfold acGetLower
    rw [show acGet ac "cnpg_enable_superuser" (.bool false) = .bool false from h']
    decide

/-- C6 witness: the amended theorem at a concrete configuration with
the superuser option off, all hypotheses discharged. -/
theorem C6_witness :
    ("templates/cnpg-app-user-secret.yaml", generate_cnpg_app_user_secret)
        ∈ chartFilesBeforeReadme cfgA ["cnpg"] [("cnpg_enable_superuser", PyValue.bool false)] ∧
    ("templates/cnpg-superuser-secret.yaml", generate_cnpg_superuser_secret)
        ∈ chartFilesBeforeReadme cfgA ["cnpg"] [("cnpg_enable_superuser", PyValue.bool false)] ∧
    acGetLower [("cnpg_enable_superuser", PyValue.bool false)] "cnpg_enable_superuser"
      (.bool false) = "false" := by
  have h := C6_cnpg_emits_both_secret_fragments cfgA
    [("cnpg_enable_superuser", PyValue.bool false)] ["cnpg"] (by decide)
  exact ⟨h.1, h.2.1, h.2.2.2 (by decide)⟩

/-- C7 counterexample: the claim's derivation rule ("strip the suffix
when present, else first label") disagrees with the code on a domain
that CONTAINS `.k8s.ucar.edu` other than as a suffix: the code's
`str.replace` removes the substring anywhere, yielding
`incommon-cert-foo.org` territory instead of the rule's `foo`. -/
theorem C7_counterexample_replace_is_not_suffix_strip :
    values_host "foo.k8s.ucar.edu.org" = "foo.org" ∧
    spec_host_rule "foo.k8s.ucar.edu.org" = "foo" ∧
    ¬ values_host "foo.k8s.ucar.edu.org" = spec_host_rule "foo.k8s.ucar.edu.org" := by
  refine ⟨by decide, by decide, by decide⟩

/-- C7 (amended): the secret-name host is `incommon-cert-` plus the
domain with EVERY occurrence of the substring `.k8s.ucar.edu` removed
when that substring occurs anywhere (else the first dot-separated
label).  The spec's two examples hold — `foo.k8s.ucar.edu` gives
`incommon-cert-foo` and `bar.example.org` gives `incommon-cert-bar` —
and on domains where the substring occurs exactly as a suffix after a
dot-free label the two readings agree. -/
theorem C7_tls_secret_name_derivation :
    values_host "foo.k8s.ucar.edu" = "foo" ∧
    values_host "bar.example.org" = "bar" ∧
    strContains (generate_modular_values cfgFoo [] []) "secretName: incommon-cert-foo" = true ∧
    strContains (generate_modular_values cfgBar [] []) "secretName: incommon-cert-bar" = true ∧
    (∀ x : String, strContains x ".k8s.ucar.edu" = false → values_host x = pySplitHead x '.') ∧
    (∀ x : String, (∀ c ∈ x.data, ¬ c = '.') → values_host (x ++ ".k8s.ucar.edu") = x) := by
  refine ⟨by decide, by decide, by decide, by decide, fun x hx => ?_,
    fun x hx => values_host_strip x hx⟩
  unfold values_host
  rw [if_neg (by simp [hx])]

/-- C7 witness: the two universally quantified clauses of the amended
theorem applied at concrete domains. -/

theorem C7_witness :
    values_host "plain" = pySplitHead "plain" '.' ∧
    values_host ("web" ++ ".k8s.ucar.edu") = "web" :=
  ⟨C7_tls_secret_name_derivation.2.2.2.2.1 "plain" (by decide),
   C7_tls_secret_name_derivation.2.2.2.2.2 "web" (by decide)⟩

/-- C8 counterexample: a non-empty unparsable instance count makes
generation fail with a ValueError from `int()` (line 76) instead of
being coerced to the documented default. -/
theorem C8_counterexample_unparsable_count_raises :
    generate_helm reqBadInstances =
      .pyError (.valueError "invalid literal for int() with base 10: abc") := by
  decide

/-- C8 (amended): an ABSENT numeric field defaults in the values
document (`instances: 3`) and an absent boolean renders `false`; but an
EMPTY string field is stored as `None` (line 76: `int(v) if v else
None`) and rendered as the literal text `None`, and a non-empty
unparsable numeric string raises a ValueError that aborts generation
with no chart emitted. -/
theorem C8_numeric_boolean_coercion_behaviour :
    extract_addon_config [("cnpg_instances", PyValue.str "")] =
      .ok [("cnpg_instances", PyValue.pynull)] ∧
    strContains (generate_modular_values cfgS ["cnpg"] [("cnpg_instances", PyValue.pynull)])
      "instances: None" = true ∧
    strContains (generate_modular_values cfgS ["cnpg"] []) "instances: 3" = true ∧
    strContains (generate_modular_values cfgS ["cnpg"] []) "backup:\n    enabled: false" = true ∧
    (extract_addon_config [("cnpg_instances", PyValue.str "abc")]).isOk = false ∧
    acGetStr [] "cnpg_instances" (PyValue.int 3) = "3" ∧
    acGetLower [] "cnpg_backup_enabled" (PyValue.bool false) = "false" := by
  refine ⟨by decide, by decide, by decide, by decide, by decide, by decide, by decide⟩
